import Mathlib

/-!
# Environmental guard firmware (`final.c`): alarm state machine and debounced input

A shallow embedding of the control logic of `final.c`.  The globals of the C
file, the function-local `static` of `atualizar_led_rgb` and the hardware
outputs written through the SDK become the fields of one record `State`; every
C function becomes a function `State → … → State`.  The microsecond clock
`to_us_since_boot(get_absolute_time())` and the two ADC samples are inputs of
the functions that read them.  `uint64_t` values are natural numbers below
`2 ^ 64` and `uint64_t` subtraction wraps.  Console output (`printf`) is not
part of the state.
-/

namespace Final

/-! ## Constants of `final.c` -/

def LED_VERMELHO : Nat := 13
def LED_AZUL : Nat := 12
def LED_VERDE : Nat := 11
def BOTAO_TEMP : Nat := 5
def BOTAO_CORRENTE : Nat := 6
def BUZZER : Nat := 21

/-- Number of values of a `uint64_t`. -/
def U64 : Nat := 2 ^ 64

/-- The `uint64_t` subtraction `a - b` of C, for `a, b < 2 ^ 64`: it wraps modulo `2 ^ 64`. -/
def sub_u64 (a b : Nat) : Nat := (a + U64 - b) % U64

/-! ## Display surface and state -/

/-- One `ssd1306_draw_string(&ssd, text, x, y)` call: the text and its pixel coordinates. -/
structure Draw where
  text : String
  x : Nat
  y : Nat
deriving DecidableEq

/-- The content of the display buffer, as the strings drawn on it since it was last cleared,
oldest first. -/
abbrev Frame := List Draw

/-- The globals of `final.c` (`Debounc_antes`, `Alarme`, `mostrar_temp`,
`mostrar_corrente`, the buffer `ssd`), the `static` local `tempo_inicio_alarme` of
`atualizar_led_rgb`, and the outputs: the PWM levels of the three LED pins, the wrap and
level of the buzzer PWM channel, and the frame last transferred to the display.  The global
`Alarme_antes` is never read or written by the program and is left out. -/
structure State where
  Debounc_antes : Nat
  Alarme : Bool
  mostrar_temp : Bool
  mostrar_corrente : Bool
  tempo_inicio_alarme : Nat
  led_vermelho : Nat
  led_verde : Nat
  led_azul : Nat
  buzzer_wrap : Nat
  buzzer_level : Nat
  ssd : Frame
  display : Frame
deriving DecidableEq

/-- Modelled from the spec: the SDK call `pwm_set_gpio_level(gpio, level)` is not in the
source file; it sets the duty level of the PWM channel behind the pin ("three independent
intensity channels", "single PWM-driven tone output"), and does nothing observable for a
pin the program drives no output on. -/
def pwm_set_gpio_level (s : State) (gpio level : Nat) : State :=
  if gpio = LED_VERMELHO then { s with led_vermelho := level }
  else if gpio = LED_VERDE then { s with led_verde := level }
  else if gpio = LED_AZUL then { s with led_azul := level }
  else if gpio = BUZZER then { s with buzzer_level := level }
  else s

/-- Modelled from the spec: `ssd1306_fill(&ssd, false)` of the display library (not in the
source file) blanks the pixel buffer. -/
def ssd1306_fill_false (s : State) : State := { s with ssd := [] }

/-- Modelled from the spec: `ssd1306_draw_string(&ssd, text, x, y)` of the display library
(not in the source file) renders `text` at pixel coordinates `(x, y)` into the buffer. -/
def ssd1306_draw_string (s : State) (text : String) (x y : Nat) : State :=
  { s with ssd := s.ssd ++ [⟨text, x, y⟩] }

/-- Modelled from the spec: `ssd1306_send_data(&ssd)` of the display library (not in the
source file) transfers the buffer to the display surface. -/
def ssd1306_send_data (s : State) : State := { s with display := s.ssd }

/-- Modelled from the spec: `sprintf(buf, "%d", v)` of the C library formats the value as a
decimal integer. -/
def sprintf_d (v : Nat) : String := Nat.repr v

/-- The state left by `inicializar_componentes`: the globals at their initialisers, the
display cleared and sent, and every PWM slice configured by `configurar_pwm` with wrap 4095
and level 0. -/
def init : State :=
  { Debounc_antes := 0, Alarme := false, mostrar_temp := false, mostrar_corrente := false,
    tempo_inicio_alarme := 0, led_vermelho := 0, led_verde := 0, led_azul := 0,
    buzzer_wrap := 4095, buzzer_level := 0, ssd := [], display := [] }

/-! ## The functions of `final.c` -/

/-- The function `alarme()`: toggles the flag; when it becomes set the LED is driven red, when it
becomes clear the buzzer level is set to 0. -/
def alarme (s : State) : State :=
  let s1 := { s with Alarme := !s.Alarme }
  if s1.Alarme then
    let s2 := pwm_set_gpio_level s1 LED_VERDE 0
    let s3 := pwm_set_gpio_level s2 LED_AZUL 0
    pwm_set_gpio_level s3 LED_VERMELHO 4095
  else
    pwm_set_gpio_level s1 BUZZER 0

/-- The interrupt handler `manipulador_irq_gpio(gpio, eventos)`, with `agora` the clock value
it reads.  The argument `eventos` is not used by the C function and is left out. -/
def manipulador_irq_gpio (s : State) (gpio agora : Nat) : State :=
  if sub_u64 agora s.Debounc_antes < 200000 then s
  else
    let s1 := { s with Debounc_antes := agora }
    if !s1.Alarme then
      if gpio = BOTAO_TEMP then
        let s2 := { s1 with mostrar_temp := !s1.mostrar_temp }
        { s2 with mostrar_corrente := false }
      else if gpio = BOTAO_CORRENTE then
        let s2 := { s1 with mostrar_corrente := !s1.mostrar_corrente }
        { s2 with mostrar_temp := false }
      else s1
    else
      alarme s1

/-- The function `atualizar_led_rgb(temp, corrente)`, with `tempo_atual` the clock value it
reads. -/
def atualizar_led_rgb (s : State) (temp corrente tempo_atual : Nat) : State :=
  if temp > 4000 ∨ temp < 20 ∨ corrente > 4000 ∨ corrente < 20 then
    let s1 :=
      if s.tempo_inicio_alarme = 0 then { s with tempo_inicio_alarme := tempo_atual } else s
    let s2 :=
      if sub_u64 tempo_atual s1.tempo_inicio_alarme > 5000000 then alarme s1 else s1
    let s3 := pwm_set_gpio_level s2 LED_VERDE 0
    let s4 := pwm_set_gpio_level s3 LED_AZUL 0
    let s5 := pwm_set_gpio_level s4 LED_VERMELHO 4095
    ssd1306_draw_string s5 "PERIGO" 10 30
  else
    let s1 := { s with tempo_inicio_alarme := 0 }
    if temp > 3000 ∨ temp < 1000 ∨ corrente > 3000 ∨ corrente < 1000 then
      let s2 := pwm_set_gpio_level s1 LED_VERDE 4095
      let s3 := pwm_set_gpio_level s2 LED_AZUL 0
      pwm_set_gpio_level s3 LED_VERMELHO 4095
    else
      let s2 := pwm_set_gpio_level s1 LED_VERDE 4095
      let s3 := pwm_set_gpio_level s2 LED_AZUL 0
      pwm_set_gpio_level s3 LED_VERMELHO 0

/-- The function `atualizar_ssd(temp, corrente)`. -/
def atualizar_ssd (s : State) (temp corrente : Nat) : State :=
  let temp_str := sprintf_d temp
  let corrente_str := sprintf_d corrente
  let s1 := ssd1306_fill_false s
  if !s1.Alarme then
    let s2 :=
      if s1.mostrar_temp then
        ssd1306_draw_string (ssd1306_draw_string s1 "Temperatura ADC" 3 10) temp_str 50 20
      else if s1.mostrar_corrente then
        ssd1306_draw_string (ssd1306_draw_string s1 "Corrente ADC" 18 10) corrente_str 50 20
      else s1
    ssd1306_send_data s2
  else
    let s2 := ssd1306_draw_string s1 "ALARME" 10 10
    let s3 := ssd1306_draw_string s2 "DISPARADO" 10 20
    let s4 := ssd1306_draw_string s3 "Aperte algum" 10 30
    let s5 := ssd1306_draw_string s4 "botao para" 10 40
    let s6 := ssd1306_draw_string s5 "desativar" 10 50
    ssd1306_send_data s6

/-- The function `monitorar_variaveis()`, one sampling tick: `temp_val` and `corrente_val` are the
two `adc_read()` results and `tempo_atual` the clock value read inside `atualizar_led_rgb`. -/
def monitorar_variaveis (s : State) (temp_val corrente_val tempo_atual : Nat) : State :=
  if s.Alarme then s
  else
    let s1 := atualizar_led_rgb s temp_val corrente_val tempo_atual
    atualizar_ssd s1 temp_val corrente_val

/-! ## Traces of ticks and interrupts -/

/-- What the program reacts to: a complete sampling tick (the two readings and the clock), or
a button interrupt (the pin and the clock). -/
inductive Event where
  | tick (temp corrente t : Nat)
  | irq (gpio t : Nat)
deriving DecidableEq

/-- The timestamp of an event. -/
def Event.time : Event → Nat
  | .tick _ _ t => t
  | .irq _ t => t

/-- One event applied to a state. -/
def step (s : State) : Event → State
  | .tick temp corrente t => monitorar_variaveis s temp corrente t
  | .irq gpio t => manipulador_irq_gpio s gpio t

/-- A sequence of events applied in order. -/
def run (s : State) (es : List Event) : State := es.foldl step s

/-! ## Observations -/

/-- The three LED levels as (red, green, blue). -/
def State.rgb (s : State) : Nat × Nat × Nat := (s.led_vermelho, s.led_verde, s.led_azul)

def Red : Nat × Nat × Nat := (4095, 0, 0)
def Yellow : Nat × Nat × Nat := (4095, 4095, 0)
def Green : Nat × Nat × Nat := (0, 4095, 0)

/-- The five lines drawn by the alarm branch of `atualizar_ssd`. -/
def alarmBanner : Frame :=
  [⟨"ALARME", 10, 10⟩, ⟨"DISPARADO", 10, 20⟩, ⟨"Aperte algum", 10, 30⟩,
   ⟨"botao para", 10, 40⟩, ⟨"desativar", 10, 50⟩]

/-- The critical test of `atualizar_led_rgb`: some reading above 4000 or below 20. -/
def critical (temp corrente : Nat) : Prop :=
  temp > 4000 ∨ temp < 20 ∨ corrente > 4000 ∨ corrente < 20

instance (temp corrente : Nat) : Decidable (critical temp corrente) := by
  unfold critical; infer_instance

/-- The display modes of the spec. -/
inductive DisplayMode where
  | Idle
  | ShowTemperature
  | ShowCurrent
  | AlarmBanner
deriving DecidableEq

/-- The mode `atualizar_ssd` renders in a state, by the order of its tests: the alarm first,
then `mostrar_temp`, then `mostrar_corrente`. -/
def displayMode (s : State) : DisplayMode :=
  if s.Alarme then .AlarmBanner
  else if s.mostrar_temp then .ShowTemperature
  else if s.mostrar_corrente then .ShowCurrent
  else .Idle

/-- A sampling tick that reads a critical value. -/
def Event.isCriticalTick : Event → Prop
  | .tick temp corrente _ => critical temp corrente
  | .irq _ _ => False

/-- An event that cannot start an excursion: a button interrupt, or a sampling tick whose two
readings are not critical. -/
def Event.isQuiet : Event → Prop
  | .tick temp corrente _ => ¬ critical temp corrente
  | .irq _ _ => True

/-! ## The control loop of `main` -/

/-- Modelled from the spec: `pwm_gpio_to_slice_num(gpio)` of the SDK (not in the source
file), the PWM slice behind a pin. -/
def pwm_gpio_to_slice_num (gpio : Nat) : Nat := (gpio / 2) % 8

/-- Modelled from the spec: `pwm_gpio_to_channel(gpio)` of the SDK (not in the source
file), the channel of its slice behind a pin. -/
def pwm_gpio_to_channel (gpio : Nat) : Nat := gpio % 2

def BUZZER_PWM_SLICE : Nat := pwm_gpio_to_slice_num BUZZER
def BUZZER_PWM_CHANNEL : Nat := pwm_gpio_to_channel BUZZER

/-- Modelled from the spec: `pwm_set_wrap(slice, wrap)` of the SDK (not in the source file)
sets the counter wrap of a slice ("frequency ... configurable").  The state keeps the wrap of
the buzzer slice only: the LED slices keep the wrap 4095 given by `configurar_pwm`. -/
def pwm_set_wrap (s : State) (slice wrap : Nat) : State :=
  if slice = pwm_gpio_to_slice_num BUZZER then { s with buzzer_wrap := wrap } else s

/-- Modelled from the spec: `pwm_set_chan_level(slice, chan, level)` of the SDK (not in the
source file) sets the duty level of one channel of a slice; it is the channel
`pwm_set_gpio_level` writes for the pin behind it. -/
def pwm_set_chan_level (s : State) (slice chan level : Nat) : State :=
  if slice = pwm_gpio_to_slice_num LED_VERMELHO ∧ chan = pwm_gpio_to_channel LED_VERMELHO then
    { s with led_vermelho := level }
  else if slice = pwm_gpio_to_slice_num LED_VERDE ∧ chan = pwm_gpio_to_channel LED_VERDE then
    { s with led_verde := level }
  else if slice = pwm_gpio_to_slice_num LED_AZUL ∧ chan = pwm_gpio_to_channel LED_AZUL then
    { s with led_azul := level }
  else if slice = pwm_gpio_to_slice_num BUZZER ∧ chan = pwm_gpio_to_channel BUZZER then
    { s with buzzer_level := level }
  else s

/-- The array `frequencias[] = {1000, 1500}` of `main`, read at index `i` (0 or 1). -/
def frequencias (i : Nat) : Nat := if i = 0 then 1000 else 1500

/-- The PWM programming that opens one pass of `while (Alarme)`: `pwm_set_wrap` and
`pwm_set_chan_level` for `frequencias[i]`.  The clock divider set by `pwm_set_clkdiv` is a
float and has no field in the state. -/
def tocar_tom (s : State) (i : Nat) : State :=
  let s1 := pwm_set_wrap s BUZZER_PWM_SLICE (125000 / frequencias i)
  pwm_set_chan_level s1 BUZZER_PWM_SLICE BUZZER_PWM_CHANNEL (125000 / frequencias i / 2)

/-- The button interrupts served during one `sleep_ms`, each a (pin, clock) pair, in order. -/
def servir (s : State) (irqs : List (Nat × Nat)) : State :=
  irqs.foldl (fun s1 p => manipulador_irq_gpio s1 p.1 p.2) s

/-- What one pass of the alarm sub-loop programs on the buzzer channel. -/
structure Tom where
  wrap : Nat
  level : Nat
deriving DecidableEq

/-- The sub-loop `while (Alarme) { ... }` of `main`, entered with index `i`.  Each element of
the list is one `sleep_ms(duracao)`, with the interrupts served during it.  The result is the
list of tones programmed, pass by pass, and the state at the exit of the loop, or `none` when
the alarm is still armed after the last listed sleep. -/
def laco_alarme : State → Nat → List (List (Nat × Nat)) → List Tom × Option State
  | s, _, [] => if s.Alarme then ([], none) else ([], some s)
  | s, i, irqs :: rest =>
    if s.Alarme then
      let s1 := tocar_tom s i
      let r := laco_alarme (servir s1 irqs) (if i = 0 then 1 else 0) rest
      (⟨s1.buzzer_wrap, s1.buzzer_level⟩ :: r.1, r.2)
    else ([], some s)

/-- One pass of the body of `while (true)` in `main`: the sampling tick, `sleep_ms(200)` with
the interrupts served during it, the alarm sub-loop entered with `i = 0`, and the final
`pwm_set_chan_level(..., 0)`. -/
def main_ciclo (s : State) (temp_val corrente_val tempo_atual : Nat) (irqs : List (Nat × Nat))
    (sleeps : List (List (Nat × Nat))) : List Tom × Option State :=
  let s1 := monitorar_variaveis s temp_val corrente_val tempo_atual
  let s2 := servir s1 irqs
  let r := laco_alarme s2 0 sleeps
  (r.1, r.2.map (fun s3 => pwm_set_chan_level s3 BUZZER_PWM_SLICE BUZZER_PWM_CHANNEL 0))

/-- The size in bytes of the buffers `temp_str` and `corrente_str` of `atualizar_ssd`. -/
def TAMANHO_STR : Nat := 5

/-! ## Auxiliary definitions for the proofs -/

/-- The frame `atualizar_ssd` draws while the alarm is disarmed: the readout selected by the
display flags, or nothing. -/
def readout (s : State) (temp corrente : Nat) : Frame :=
  if s.mostrar_temp then [⟨"Temperatura ADC", 3, 10⟩, ⟨sprintf_d temp, 50, 20⟩]
  else if s.mostrar_corrente then [⟨"Corrente ADC", 18, 10⟩, ⟨sprintf_d corrente, 50, 20⟩]
  else []

/-- The excursion start a critical tick works with: the stored one, or the clock when none is
stored. -/
def inicio (s : State) (t : Nat) : Nat :=
  if s.tempo_inicio_alarme = 0 then t else s.tempo_inicio_alarme

/-- While an excursion that started no later than `t0` is being timed, either the alarm is
already armed or the stored start is a real timestamp not after `t0`. -/
def Timing (t0 : Nat) (s : State) : Prop :=
  s.Alarme = true ∨ (0 < s.tempo_inicio_alarme ∧ s.tempo_inicio_alarme ≤ t0)

/-- Inside the 5 s window opened at time `lo`, with the clock at `m`: the alarm is disarmed and
the excursion timer is not started or holds a time between `lo` and `m`. -/
def Window (lo m : Nat) (s : State) : Prop :=
  s.Alarme = false ∧
    (s.tempo_inicio_alarme = 0 ∨ (lo ≤ s.tempo_inicio_alarme ∧ s.tempo_inicio_alarme ≤ m))

/-- The alarm override: an armed state shows red and the alarm banner. -/
def Override (s : State) : Prop :=
  s.Alarme = true → s.rgb = Red ∧ s.display = alarmBanner

/-! ## Basic facts about the functions -/

theorem sub_u64_of_le {a b : Nat} (hba : b ≤ a) (ha : a < U64) : sub_u64 a b = a - b := by
  unfold sub_u64 U64 at *
  omega

theorem sub_u64_self (a : Nat) : sub_u64 a a = 0 := by
  unfold sub_u64 U64
  omega

@[simp]
theorem pwm_set_gpio_level_vermelho (s : State) (v : Nat) :
    pwm_set_gpio_level s LED_VERMELHO v = { s with led_vermelho := v } := rfl

@[simp]
theorem pwm_set_gpio_level_verde (s : State) (v : Nat) :
    pwm_set_gpio_level s LED_VERDE v = { s with led_verde := v } := rfl

@[simp]
theorem pwm_set_gpio_level_azul (s : State) (v : Nat) :
    pwm_set_gpio_level s LED_AZUL v = { s with led_azul := v } := rfl

@[simp]
theorem pwm_set_gpio_level_buzzer (s : State) (v : Nat) :
    pwm_set_gpio_level s BUZZER v = { s with buzzer_level := v } := rfl

theorem alarme_of_disarmed (s : State) (h : s.Alarme = false) :
    alarme s = { s with Alarme := true, led_verde := 0, led_azul := 0, led_vermelho := 4095 } := by
  simp [alarme, h]

theorem alarme_of_armed (s : State) (h : s.Alarme = true) :
    alarme s = { s with Alarme := false, buzzer_level := 0 } := by
  simp [alarme, h]

theorem tick_of_armed (s : State) (temp corrente t : Nat) (h : s.Alarme = true) :
    monitorar_variaveis s temp corrente t = s := by
  simp [monitorar_variaveis, h]

/-- A critical tick of a disarmed state whose excursion has lasted more than 5 s: the whole
resulting state. -/
theorem tick_fire (s : State) (temp corrente t : Nat) (h : s.Alarme = false)
    (hc : critical temp corrente) (hf : sub_u64 t (inicio s t) > 5000000) :
    monitorar_variaveis s temp corrente t =
      { s with tempo_inicio_alarme := inicio s t, Alarme := true, led_verde := 0, led_azul := 0,
               led_vermelho := 4095, ssd := alarmBanner, display := alarmBanner } := by
  unfold critical at hc
  unfold inicio at hf ⊢
  by_cases h0 : s.tempo_inicio_alarme = 0
  · simp only [h0, if_true] at hf ⊢
    simp [monitorar_variaveis, atualizar_led_rgb, atualizar_ssd, alarme_of_disarmed, h, hc, h0, hf,
      ssd1306_draw_string, ssd1306_send_data, ssd1306_fill_false, alarmBanner]
  · simp only [h0, if_false] at hf ⊢
    simp [monitorar_variaveis, atualizar_led_rgb, atualizar_ssd, alarme_of_disarmed, h, hc, h0, hf,
      ssd1306_draw_string, ssd1306_send_data, ssd1306_fill_false, alarmBanner]

/-- A critical tick of a disarmed state whose excursion has lasted at most 5 s. -/
theorem tick_hold (s : State) (temp corrente t : Nat) (h : s.Alarme = false)
    (hc : critical temp corrente) (hf : ¬ sub_u64 t (inicio s t) > 5000000) :
    monitorar_variaveis s temp corrente t =
      { s with tempo_inicio_alarme := inicio s t, led_verde := 0, led_azul := 0,
               led_vermelho := 4095, ssd := readout s temp corrente,
               display := readout s temp corrente } := by
  unfold critical at hc
  unfold inicio at hf ⊢
  unfold readout
  by_cases h0 : s.tempo_inicio_alarme = 0
  · simp only [h0, if_true] at hf ⊢
    cases hmt : s.mostrar_temp <;> cases hmc : s.mostrar_corrente <;>
      simp [monitorar_variaveis, atualizar_led_rgb, atualizar_ssd, h, hc, h0, hf, hmt, hmc,
        ssd1306_draw_string, ssd1306_send_data, ssd1306_fill_false]
  · simp only [h0, if_false] at hf ⊢
    cases hmt : s.mostrar_temp <;> cases hmc : s.mostrar_corrente <;>
      simp [monitorar_variaveis, atualizar_led_rgb, atualizar_ssd, h, hc, h0, hf, hmt, hmc,
        ssd1306_draw_string, ssd1306_send_data, ssd1306_fill_false]

/-- A tick of a disarmed state with no critical reading. -/
theorem tick_inband (s : State) (temp corrente t : Nat) (h : s.Alarme = false)
    (hc : ¬ critical temp corrente) :
    monitorar_variaveis s temp corrente t =
      { s with tempo_inicio_alarme := 0, led_verde := 4095, led_azul := 0,
               led_vermelho :=
                 if temp > 3000 ∨ temp < 1000 ∨ corrente > 3000 ∨ corrente < 1000 then 4095
                 else 0,
               ssd := readout s temp corrente, display := readout s temp corrente } := by
  unfold critical at hc
  unfold readout
  by_cases hy : temp > 3000 ∨ temp < 1000 ∨ corrente > 3000 ∨ corrente < 1000
  · simp only [hy, if_true]
    cases hmt : s.mostrar_temp <;> cases hmc : s.mostrar_corrente <;>
      simp [monitorar_variaveis, atualizar_led_rgb, atualizar_ssd, h, hc, hy, hmt, hmc,
        ssd1306_draw_string, ssd1306_send_data, ssd1306_fill_false]
  · simp only [hy, if_false]
    cases hmt : s.mostrar_temp <;> cases hmc : s.mostrar_corrente <;>
      simp [monitorar_variaveis, atualizar_led_rgb, atualizar_ssd, h, hc, hy, hmt, hmc,
        ssd1306_draw_string, ssd1306_send_data, ssd1306_fill_false]

theorem irq_dropped (s : State) (gpio agora : Nat)
    (h : sub_u64 agora s.Debounc_antes < 200000) : manipulador_irq_gpio s gpio agora = s := by
  simp [manipulador_irq_gpio, h]

theorem irq_armed (s : State) (gpio agora : Nat) (h : ¬ sub_u64 agora s.Debounc_antes < 200000)
    (ha : s.Alarme = true) :
    manipulador_irq_gpio s gpio agora =
      { s with Debounc_antes := agora, Alarme := false, buzzer_level := 0 } := by
  simp [manipulador_irq_gpio, h, ha, alarme]

theorem irq_temp (s : State) (agora : Nat) (h : ¬ sub_u64 agora s.Debounc_antes < 200000)
    (ha : s.Alarme = false) :
    manipulador_irq_gpio s BOTAO_TEMP agora =
      { s with Debounc_antes := agora, mostrar_temp := !s.mostrar_temp,
               mostrar_corrente := false } := by
  simp [manipulador_irq_gpio, h, ha]

theorem irq_corrente (s : State) (agora : Nat) (h : ¬ sub_u64 agora s.Debounc_antes < 200000)
    (ha : s.Alarme = false) :
    manipulador_irq_gpio s BOTAO_CORRENTE agora =
      { s with Debounc_antes := agora, mostrar_corrente := !s.mostrar_corrente,
               mostrar_temp := false } := by
  simp [manipulador_irq_gpio, h, ha, BOTAO_CORRENTE, BOTAO_TEMP]

theorem irq_other (s : State) (gpio agora : Nat) (h : ¬ sub_u64 agora s.Debounc_antes < 200000)
    (ha : s.Alarme = false) (h1 : gpio ≠ BOTAO_TEMP) (h2 : gpio ≠ BOTAO_CORRENTE) :
    manipulador_irq_gpio s gpio agora = { s with Debounc_antes := agora } := by
  simp [manipulador_irq_gpio, h, ha, h1, h2]

/-- A button interrupt never touches the excursion timer. -/
theorem irq_tempo_inicio_alarme (s : State) (gpio agora : Nat) :
    (manipulador_irq_gpio s gpio agora).tempo_inicio_alarme = s.tempo_inicio_alarme := by
  by_cases h : sub_u64 agora s.Debounc_antes < 200000
  · rw [irq_dropped s gpio agora h]
  · cases ha : s.Alarme
    · by_cases h1 : gpio = BOTAO_TEMP
      · subst h1; rw [irq_temp s agora h ha]
      · by_cases h2 : gpio = BOTAO_CORRENTE
        · subst h2; rw [irq_corrente s agora h ha]
        · rw [irq_other s gpio agora h ha h1 h2]
    · rw [irq_armed s gpio agora h ha]

/-- A button interrupt never arms the alarm. -/
theorem irq_Alarme_of_disarmed (s : State) (gpio agora : Nat) (ha : s.Alarme = false) :
    (manipulador_irq_gpio s gpio agora).Alarme = false := by
  by_cases h : sub_u64 agora s.Debounc_antes < 200000
  · rw [irq_dropped s gpio agora h]; exact ha
  · by_cases h1 : gpio = BOTAO_TEMP
    · subst h1; rw [irq_temp s agora h ha]; exact ha
    · by_cases h2 : gpio = BOTAO_CORRENTE
      · subst h2; rw [irq_corrente s agora h ha]; exact ha
      · rw [irq_other s gpio agora h ha h1 h2]; exact ha

/-! ## Runs -/

@[simp]
theorem run_nil (s : State) : run s [] = s := rfl

@[simp]
theorem run_cons (s : State) (e : Event) (es : List Event) :
    run s (e :: es) = run (step s e) es := rfl

theorem run_append (s : State) (es fs : List Event) :
    run s (es ++ fs) = run (run s es) fs := by
  simp [run, List.foldl_append]

/-- Once armed, a state is not changed by sampling ticks of any kind. -/
theorem run_ticks_of_armed (es : List Event) (hes : ∀ e ∈ es, ∃ a b t, e = Event.tick a b t)
    (s : State) (h : s.Alarme = true) : run s es = s := by
  induction es with
  | nil => rfl
  | cons e es ih =>
    obtain ⟨a, b, t, rfl⟩ := hes e (List.mem_cons_self _ _)
    rw [run_cons, step, tick_of_armed s a b t h]
    exact ih (fun e he => hes e (List.mem_cons_of_mem _ he))

/-! ## Excursion timing -/

theorem timing_first_tick (s : State) (temp corrente t0 : Nat) (hd : s.Alarme = false)
    (hs : s.tempo_inicio_alarme ≤ t0) (h0 : 0 < t0) (hc : critical temp corrente) :
    Timing t0 (monitorar_variaveis s temp corrente t0) := by
  have hi : 0 < inicio s t0 ∧ inicio s t0 ≤ t0 := by
    unfold inicio; split_ifs with h <;> omega
  by_cases hf : sub_u64 t0 (inicio s t0) > 5000000
  · rw [tick_fire s temp corrente t0 hd hc hf]; exact Or.inl rfl
  · rw [tick_hold s temp corrente t0 hd hc hf]; exact Or.inr hi

theorem timing_critical_tick (t0 : Nat) (s : State) (temp corrente t : Nat)
    (hc : critical temp corrente) (hT : Timing t0 s) :
    Timing t0 (monitorar_variaveis s temp corrente t) := by
  cases hd : s.Alarme with
  | true => rw [tick_of_armed s temp corrente t hd]; exact hT
  | false =>
    rcases hT with h | h
    · simp [hd] at h
    · have hi : inicio s t = s.tempo_inicio_alarme := by
        unfold inicio; rw [if_neg (by omega)]
      by_cases hf : sub_u64 t (inicio s t) > 5000000
      · rw [tick_fire s temp corrente t hd hc hf]; exact Or.inl rfl
      · rw [tick_hold s temp corrente t hd hc hf]; right; simpa [hi] using h

theorem timing_run (t0 : Nat) (es : List Event) (hes : ∀ e ∈ es, e.isCriticalTick) (s : State)
    (hT : Timing t0 s) : Timing t0 (run s es) := by
  induction es generalizing s with
  | nil => exact hT
  | cons e es ih =>
    rw [run_cons]
    apply ih (fun e he => hes e (List.mem_cons_of_mem _ he))
    have he := hes e (List.mem_cons_self _ _)
    cases e with
    | tick a b t => exact timing_critical_tick t0 s a b t he hT
    | irq g t => exact absurd he (by simp [Event.isCriticalTick])

theorem timing_final_tick (t0 : Nat) (s : State) (temp corrente t : Nat)
    (hc : critical temp corrente) (hT : Timing t0 s) (ht : t0 + 5000000 < t) (htU : t < U64) :
    (monitorar_variaveis s temp corrente t).Alarme = true := by
  cases hd : s.Alarme with
  | true => rw [tick_of_armed s temp corrente t hd]; exact hd
  | false =>
    rcases hT with h | h
    · simp [hd] at h
    · have hi : inicio s t = s.tempo_inicio_alarme := by
        unfold inicio; rw [if_neg (by omega)]
      have hf : sub_u64 t (inicio s t) > 5000000 := by
        rw [hi, sub_u64_of_le (by omega) htU]; omega
      rw [tick_fire s temp corrente t hd hc hf]

theorem window_step (lo m : Nat) (s : State) (e : Event) (hW : Window lo m s) (hlo : lo ≤ m)
    (hm : m ≤ e.time) (hhi : e.time ≤ lo + 5000000) (hU : e.time < U64) :
    Window lo e.time (step s e) := by
  obtain ⟨hd, htm⟩ := hW
  cases e with
  | tick a b t =>
    simp only [Event.time] at hm hhi hU ⊢
    simp only [step]
    by_cases hc : critical a b
    · have hi : lo ≤ inicio s t ∧ inicio s t ≤ t := by
        unfold inicio; split_ifs with h <;> omega
      have hf : ¬ sub_u64 t (inicio s t) > 5000000 := by
        rw [sub_u64_of_le hi.2 hU]; omega
      rw [tick_hold s a b t hd hc hf]
      exact ⟨hd, Or.inr hi⟩
    · rw [tick_inband s a b t hd hc]
      exact ⟨hd, Or.inl rfl⟩
  | irq g t =>
    simp only [Event.time] at hm hhi hU ⊢
    simp only [step]
    refine ⟨irq_Alarme_of_disarmed s g t hd, ?_⟩
    rw [irq_tempo_inicio_alarme]
    rcases htm with h | h
    · exact Or.inl h
    · exact Or.inr ⟨h.1, by omega⟩

theorem window_run (lo : Nat) (es : List Event)
    (hsorted : es.Pairwise (fun a b => a.time ≤ b.time)) (m : Nat) (s : State)
    (hW : Window lo m s) (hlo : lo ≤ m)
    (hes : ∀ e ∈ es, m ≤ e.time ∧ e.time ≤ lo + 5000000 ∧ e.time < U64) :
    (run s es).Alarme = false := by
  induction es generalizing m s with
  | nil => exact hW.1
  | cons e es ih =>
    rw [run_cons]
    obtain ⟨h1, h2, h3⟩ := hes e (List.mem_cons_self _ _)
    rw [List.pairwise_cons] at hsorted
    apply ih hsorted.2 e.time (step s e) (window_step lo m s e hW hlo h1 h2 h3) (by omega)
    intro e' he'
    exact ⟨hsorted.1 e' he', (hes e' (List.mem_cons_of_mem _ he')).2⟩

/-- Quiet events keep a disarmed state with no excursion being timed in that condition. -/
theorem quiet_run (es : List Event) (hes : ∀ e ∈ es, e.isQuiet) (s : State)
    (hd : s.Alarme = false) (h0 : s.tempo_inicio_alarme = 0) :
    (run s es).Alarme = false ∧ (run s es).tempo_inicio_alarme = 0 := by
  induction es generalizing s with
  | nil => exact ⟨hd, h0⟩
  | cons e es ih =>
    rw [run_cons]
    have he := hes e (List.mem_cons_self _ _)
    cases e with
    | tick a b t =>
      have hq : ¬ critical a b := he
      apply ih (fun e he => hes e (List.mem_cons_of_mem _ he))
      · simp only [step]; rw [tick_inband s a b t hd hq]; exact hd
      · simp only [step]; rw [tick_inband s a b t hd hq]
    | irq g t =>
      apply ih (fun e he => hes e (List.mem_cons_of_mem _ he))
      · exact irq_Alarme_of_disarmed s g t hd
      · simp only [step]; rw [irq_tempo_inicio_alarme]; exact h0

/-- A critical tick of a disarmed state with no excursion being timed stores its own
timestamp as the excursion start. -/
theorem tick_starts_timer (s : State) (temp corrente t : Nat) (hd : s.Alarme = false)
    (h0 : s.tempo_inicio_alarme = 0) (hc : critical temp corrente) :
    (monitorar_variaveis s temp corrente t).tempo_inicio_alarme = t := by
  have hi : inicio s t = t := by unfold inicio; rw [if_pos h0]
  have hf : ¬ sub_u64 t (inicio s t) > 5000000 := by rw [hi, sub_u64_self]; omega
  rw [tick_hold s temp corrente t hd hc hf]
  exact hi

/-! ## Colour, frame and invariant lemmas -/

/-- The LED colour after a tick of a disarmed state, by the two tests of
`atualizar_led_rgb`. -/
theorem tick_rgb (s : State) (temp corrente t : Nat) (hd : s.Alarme = false) :
    (monitorar_variaveis s temp corrente t).rgb =
      if critical temp corrente then Red
      else if temp > 3000 ∨ temp < 1000 ∨ corrente > 3000 ∨ corrente < 1000 then Yellow
      else Green := by
  by_cases hc : critical temp corrente
  · rw [if_pos hc]
    by_cases hf : sub_u64 t (inicio s t) > 5000000
    · rw [tick_fire s temp corrente t hd hc hf]; rfl
    · rw [tick_hold s temp corrente t hd hc hf]; rfl
  · rw [if_neg hc, tick_inband s temp corrente t hd hc]
    by_cases hy : temp > 3000 ∨ temp < 1000 ∨ corrente > 3000 ∨ corrente < 1000
    · simp only [if_pos hy]; rfl
    · simp only [if_neg hy]; rfl

/-- A sampling tick writes neither the debounce timestamp, nor the display flags, nor the
buzzer. -/
theorem tick_keeps (s : State) (temp corrente t : Nat) :
    (monitorar_variaveis s temp corrente t).Debounc_antes = s.Debounc_antes ∧
    (monitorar_variaveis s temp corrente t).mostrar_temp = s.mostrar_temp ∧
    (monitorar_variaveis s temp corrente t).mostrar_corrente = s.mostrar_corrente ∧
    (monitorar_variaveis s temp corrente t).buzzer_level = s.buzzer_level ∧
    (monitorar_variaveis s temp corrente t).buzzer_wrap = s.buzzer_wrap := by
  cases hd : s.Alarme with
  | true => rw [tick_of_armed s temp corrente t hd]; simp
  | false =>
    by_cases hc : critical temp corrente
    · by_cases hf : sub_u64 t (inicio s t) > 5000000
      · rw [tick_fire s temp corrente t hd hc hf]; simp
      · rw [tick_hold s temp corrente t hd hc hf]; simp
    · rw [tick_inband s temp corrente t hd hc]; simp

theorem run_ticks_keeps (es : List Event) (hes : ∀ e ∈ es, ∃ a b t, e = Event.tick a b t)
    (s : State) :
    (run s es).Debounc_antes = s.Debounc_antes ∧ (run s es).mostrar_temp = s.mostrar_temp ∧
    (run s es).mostrar_corrente = s.mostrar_corrente := by
  induction es generalizing s with
  | nil => exact ⟨rfl, rfl, rfl⟩
  | cons e es ih =>
    obtain ⟨a, b, t, rfl⟩ := hes e (List.mem_cons_self _ _)
    rw [run_cons]
    obtain ⟨h1, h2, h3⟩ := ih (fun e he => hes e (List.mem_cons_of_mem _ he))
      (step s (.tick a b t))
    obtain ⟨k1, k2, k3, -, -⟩ := tick_keeps s a b t
    simp only [step] at h1 h2 h3 ⊢
    exact ⟨h1.trans k1, h2.trans k2, h3.trans k3⟩

theorem override_step (s : State) (e : Event) (hI : Override s) : Override (step s e) := by
  cases e with
  | tick a b t =>
    simp only [step]
    cases hd : s.Alarme with
    | true => rw [tick_of_armed s a b t hd]; exact hI
    | false =>
      by_cases hc : critical a b
      · by_cases hf : sub_u64 t (inicio s t) > 5000000
        · rw [tick_fire s a b t hd hc hf]; intro _; exact ⟨rfl, rfl⟩
        · rw [tick_hold s a b t hd hc hf]; intro h; simp [hd] at h
      · rw [tick_inband s a b t hd hc]; intro h; simp [hd] at h
  | irq g t =>
    simp only [step]
    cases hd : s.Alarme with
    | true =>
      by_cases h : sub_u64 t s.Debounc_antes < 200000
      · rw [irq_dropped s g t h]; exact hI
      · rw [irq_armed s g t h hd]; intro h; simp at h
    | false =>
      intro h
      rw [irq_Alarme_of_disarmed s g t hd] at h
      simp at h

theorem override_run (es : List Event) (s : State) (hI : Override s) : Override (run s es) := by
  induction es generalizing s with
  | nil => exact hI
  | cons e es ih => rw [run_cons]; exact ih _ (override_step s e hI)

/-! ## C1 -/

/-- C1 (as written, refuted): with both readings at 4100, a first excursion tick at
`t0 = 1000000` us that starts the timer at `t0`, and the next tick at exactly
`t0 + 5000000` us, the alarm is still disarmed after the later tick. -/
theorem alarm_not_armed_at_exactly_5s :
    critical 4100 4100 ∧ init.Alarme = false ∧
    (run init [.tick 4100 4100 1000000]).tempo_inicio_alarme = 1000000 ∧
    (run init [.tick 4100 4100 1000000, .tick 4100 4100 (1000000 + 5000000)]).Alarme = false := by
  decide

/-- C1 (amended): take a disarmed state, a critical tick at a nonzero time `t0`, any number
of further critical ticks, and a last critical tick at time `t`.  If the excursion timer was
not started before the first tick, or held a time not after `t0`, and `t` is more than
5000000 us after `t0`, then `Alarme` is true after the last tick.  If the timer was not
started before the first tick, the timestamps of the run are non-decreasing and `t` is at most
`t0 + 5000000`, exactly 5000000 us included, then `Alarme` is still false after the last
tick. -/
theorem alarm_armed_after_more_than_5s (s : State) (temp0 corrente0 t0 : Nat) (mid : List Event)
    (temp corrente t : Nat) (hd : s.Alarme = false) (hs : s.tempo_inicio_alarme ≤ t0)
    (h0 : 0 < t0) (hc0 : critical temp0 corrente0) (hmid : ∀ e ∈ mid, e.isCriticalTick)
    (hc : critical temp corrente) (htU : t < U64) :
    (t0 + 5000000 < t →
      (run s (.tick temp0 corrente0 t0 :: (mid ++ [.tick temp corrente t]))).Alarme = true) ∧
    (s.tempo_inicio_alarme = 0 →
      (Event.tick temp0 corrente0 t0 :: (mid ++ [Event.tick temp corrente t])).Pairwise
        (fun e1 e2 : Event => e1.time ≤ e2.time) →
      t ≤ t0 + 5000000 →
      (run s (.tick temp0 corrente0 t0 :: (mid ++ [.tick temp corrente t]))).Alarme = false) := by
  constructor
  · intro ht
    rw [run_cons, run_append, run_cons, run_nil]
    exact timing_final_tick t0 _ temp corrente t hc
      (timing_run t0 mid hmid _ (timing_first_tick s temp0 corrente0 t0 hd hs h0 hc0)) ht htU
  · intro hz hmono ht
    have hi : inicio s t0 = t0 := by unfold inicio; rw [if_pos hz]
    have hf : ¬ sub_u64 t0 (inicio s t0) > 5000000 := by rw [hi, sub_u64_self]; omega
    obtain ⟨hfirst, hrest⟩ := List.pairwise_cons.1 hmono
    have hlast : ∀ e ∈ mid ++ [Event.tick temp corrente t], e.time ≤ t := by
      intro e he
      rcases List.mem_append.1 he with hm | hl
      · exact (List.pairwise_append.1 hrest).2.2 e hm (.tick temp corrente t)
          (List.mem_singleton_self _)
      · rw [List.mem_singleton.1 hl]; exact le_refl t
    rw [run_cons]
    refine window_run t0 _ hrest t0 _ ?_ (le_refl t0) ?_
    · simp only [step]
      rw [tick_hold s temp0 corrente0 t0 hd hc0 hf]
      exact ⟨hd, Or.inr ⟨by rw [hi], by rw [hi]⟩⟩
    · intro e he
      have h1 : t0 ≤ e.time := hfirst e he
      have h2 := hlast e he
      exact ⟨h1, by omega, by omega⟩

/-- C1 (amended), at readings 4100 from the initial state, with ticks at 1 s and 3 s: a last
tick at 6.000001 s leaves the alarm armed, a last tick at exactly 6 s leaves it disarmed. -/
theorem alarm_armed_after_more_than_5s_witness :
    (run init (.tick 4100 4100 1000000 ::
      ([.tick 4100 4100 3000000] ++ [.tick 4100 4100 6000001]))).Alarme = true ∧
    (run init (.tick 4100 4100 1000000 ::
      ([.tick 4100 4100 3000000] ++ [.tick 4100 4100 6000000]))).Alarme = false :=
  ⟨(alarm_armed_after_more_than_5s init 4100 4100 1000000 [.tick 4100 4100 3000000]
      4100 4100 6000001 rfl (by decide) (by decide) (by decide)
      (by intro e he; simp at he; subst he; simp [Event.isCriticalTick, critical])
      (by decide) (by decide)).1 (by decide),
   (alarm_armed_after_more_than_5s init 4100 4100 1000000 [.tick 4100 4100 3000000]
      4100 4100 6000000 rfl (by decide) (by decide) (by decide)
      (by intro e he; simp at he; subst he; simp [Event.isCriticalTick, critical])
      (by decide) (by decide)).2 rfl (by simp [Event.time]) (by decide)⟩

/-! ## C2 -/

/-- C2: in a trace from the initial state with non-decreasing timestamps, a sampling tick at
time `t` executed with the alarm disarmed and both readings inside [20, 4000] resets the
excursion timer to 0 (not started); whatever ticks and button interrupts follow with
timestamps up to `t + 5000000`, the alarm is still disarmed after them; and after any further
non-critical ticks and interrupts, the first critical tick stores its own timestamp as the
excursion start. -/
theorem no_alarm_within_5s_of_inband_tick (pre post : List Event) (temp corrente t : Nat)
    (hd : (run init pre).Alarme = false)
    (hin : 20 ≤ temp ∧ temp ≤ 4000 ∧ 20 ≤ corrente ∧ corrente ≤ 4000)
    (hmono : (pre ++ .tick temp corrente t :: post).Pairwise (fun a b => a.time ≤ b.time))
    (hwin : ∀ e ∈ post, e.time ≤ t + 5000000 ∧ e.time < U64) :
    (run init (pre ++ [.tick temp corrente t])).tempo_inicio_alarme = 0 ∧
    (run init (pre ++ .tick temp corrente t :: post)).Alarme = false ∧
    ∀ (quiet : List Event) (temp1 corrente1 t1 : Nat), (∀ e ∈ quiet, e.isQuiet) →
      critical temp1 corrente1 →
      (run init (pre ++ .tick temp corrente t :: (quiet ++ [.tick temp1 corrente1 t1]))
        ).tempo_inicio_alarme = t1 := by
  have hc : ¬ critical temp corrente := by unfold critical; omega
  have hs1 : step (run init pre) (.tick temp corrente t) =
      monitorar_variaveis (run init pre) temp corrente t := rfl
  have hA : (step (run init pre) (.tick temp corrente t)).Alarme = false := by
    rw [hs1, tick_inband _ temp corrente t hd hc]; exact hd
  have hT : (step (run init pre) (.tick temp corrente t)).tempo_inicio_alarme = 0 := by
    rw [hs1, tick_inband _ temp corrente t hd hc]
  refine ⟨?_, ?_, ?_⟩
  · rw [run_append, run_cons, run_nil]; exact hT
  · rw [run_append, run_cons]
    have hp := (List.pairwise_append.1 hmono).2.1
    rw [List.pairwise_cons] at hp
    apply window_run t post hp.2 t _ ⟨hA, Or.inl hT⟩ (le_refl t)
    intro e he
    exact ⟨hp.1 e he, hwin e he⟩
  · intro quiet temp1 corrente1 t1 hq hc1
    rw [run_append, run_cons, run_append, run_cons, run_nil]
    obtain ⟨hqa, hqt⟩ := quiet_run quiet hq _ hA hT
    exact tick_starts_timer _ temp1 corrente1 t1 hqa hqt hc1

/-- C2 at a concrete trace: an excursion from 1 s, an in-band tick at 4 s, and a new excursion
whose ticks at 5 s, 7 s and 9 s do not arm the alarm although the first excursion began 8 s
before the last of them. -/
theorem no_alarm_within_5s_of_inband_tick_witness :
    (run init ([.tick 4100 2000 1000000] ++ [.tick 2000 2000 4000000])).tempo_inicio_alarme = 0 ∧
    (run init ([.tick 4100 2000 1000000] ++ .tick 2000 2000 4000000 ::
      [.tick 4100 2000 5000000, .irq 5 6000000, .tick 4100 2000 7000000,
       .tick 4100 2000 9000000])).Alarme = false ∧
    ∀ (quiet : List Event) (temp1 corrente1 t1 : Nat), (∀ e ∈ quiet, e.isQuiet) →
      critical temp1 corrente1 →
      (run init ([.tick 4100 2000 1000000] ++ .tick 2000 2000 4000000 ::
        (quiet ++ [.tick temp1 corrente1 t1]))).tempo_inicio_alarme = t1 :=
  no_alarm_within_5s_of_inband_tick [.tick 4100 2000 1000000]
    [.tick 4100 2000 5000000, .irq 5 6000000, .tick 4100 2000 7000000, .tick 4100 2000 9000000]
    2000 2000 4000000 (by decide) (by decide)
    (by simp [Event.time]) (by simp [Event.time, U64])

/-! ## C3 -/

/-- C3: a sampling tick executed with the alarm disarmed drives the LED to Red (4095, 0, 0)
iff some reading is below 20 or above 4000, to Yellow (4095, 4095, 0) iff it is not Red and
some reading is below 1000 or above 3000, to Green (0, 4095, 0) iff both readings are within
[1000, 3000]; and the colour is the same from any other disarmed state at any other clock
value. -/
theorem indicator_colour_policy (s : State) (temp corrente t : Nat) (hd : s.Alarme = false) :
    ((monitorar_variaveis s temp corrente t).rgb = Red ↔
      (temp < 20 ∨ temp > 4000 ∨ corrente < 20 ∨ corrente > 4000)) ∧
    ((monitorar_variaveis s temp corrente t).rgb = Yellow ↔
      (¬ (temp < 20 ∨ temp > 4000 ∨ corrente < 20 ∨ corrente > 4000) ∧
        (temp < 1000 ∨ temp > 3000 ∨ corrente < 1000 ∨ corrente > 3000))) ∧
    ((monitorar_variaveis s temp corrente t).rgb = Green ↔
      (1000 ≤ temp ∧ temp ≤ 3000 ∧ 1000 ≤ corrente ∧ corrente ≤ 3000)) ∧
    ∀ (s2 : State) (t2 : Nat), s2.Alarme = false →
      (monitorar_variaveis s2 temp corrente t2).rgb = (monitorar_variaveis s temp corrente t).rgb := by
  refine ⟨?_, ?_, ?_, ?_⟩
  · rw [tick_rgb s temp corrente t hd]; unfold critical
    split_ifs with h1 h2
    · simp only [true_iff]; omega
    · simp only [Red, Yellow, Prod.mk.injEq]; omega
    · simp only [Red, Green, Prod.mk.injEq]; omega
  · rw [tick_rgb s temp corrente t hd]; unfold critical
    split_ifs with h1 h2
    · simp only [Red, Yellow, Prod.mk.injEq]; omega
    · simp only [true_iff]; omega
    · simp only [Yellow, Green, Prod.mk.injEq]; omega
  · rw [tick_rgb s temp corrente t hd]; unfold critical
    split_ifs with h1 h2
    · simp only [Red, Green, Prod.mk.injEq]; omega
    · simp only [Yellow, Green, Prod.mk.injEq]; omega
    · simp only [true_iff]; omega
  · intro s2 t2 hd2
    rw [tick_rgb s temp corrente t hd, tick_rgb s2 temp corrente t2 hd2]

/-- C3 at the three reading pairs of the spec: (3500, 2000) gives Yellow, (10, 2000) gives
Red, (2000, 2500) gives Green. -/
theorem indicator_colour_policy_witness :
    (monitorar_variaveis init 3500 2000 1000000).rgb = Yellow ∧
    (monitorar_variaveis init 10 2000 1000000).rgb = Red ∧
    (monitorar_variaveis init 2000 2500 1000000).rgb = Green :=
  ⟨(indicator_colour_policy init 3500 2000 1000000 rfl).2.1.2 (by decide),
   (indicator_colour_policy init 10 2000 1000000 rfl).1.2 (by decide),
   (indicator_colour_policy init 2000 2500 1000000 rfl).2.2.1.2 (by decide)⟩

/-! ## C4 -/

/-- C4: after any sequence of complete sampling ticks and button interrupts from the initial
state, if `Alarme` is true then the LED levels are red 4095, green 0, blue 0 and the frame last
sent to the display is the alarm banner. -/
theorem alarm_override_invariant (es : List Event) (h : (run init es).Alarme = true) :
    (run init es).rgb = Red ∧ (run init es).display = alarmBanner :=
  override_run es init (fun h0 => by simp [init] at h0) h

/-- C4 on a trace that selects the temperature readout and then arms the alarm. -/
theorem alarm_override_invariant_witness :
    (run init [.irq 5 500000, .tick 4100 2000 1000000, .tick 4100 10 6000001,
      .tick 2000 2000 6200000]).rgb = Red ∧
    (run init [.irq 5 500000, .tick 4100 2000 1000000, .tick 4100 10 6000001,
      .tick 2000 2000 6200000]).display = alarmBanner :=
  alarm_override_invariant
    [.irq 5 500000, .tick 4100 2000 1000000, .tick 4100 10 6000001, .tick 2000 2000 6200000]
    (by decide)

/-! ## C5 -/

/-- C5: in a state with `Alarme` true, an accepted call of the interrupt handler (at least
200000 us since the stored timestamp), for any pin value, leaves `Alarme` false and the buzzer
level 0. -/
theorem disarm_by_any_button (s : State) (gpio agora : Nat) (ha : s.Alarme = true)
    (hacc : 200000 ≤ sub_u64 agora s.Debounc_antes) :
    (manipulador_irq_gpio s gpio agora).Alarme = false ∧
    (manipulador_irq_gpio s gpio agora).buzzer_level = 0 := by
  rw [irq_armed s gpio agora (by omega) ha]
  exact ⟨rfl, rfl⟩

/-- C5 on an armed state whose buzzer is sounding, with a pin that is neither button. -/
theorem disarm_by_any_button_witness :
    (manipulador_irq_gpio { init with Alarme := true, buzzer_level := 62 } 17 300000).Alarme
      = false ∧
    (manipulador_irq_gpio { init with Alarme := true, buzzer_level := 62 } 17 300000).buzzer_level
      = 0 :=
  disarm_by_any_button { init with Alarme := true, buzzer_level := 62 } 17 300000 rfl (by decide)

/-! ## C6 -/

/-- C6: a call of the interrupt handler less than 200000 us after the stored timestamp of the
last accepted event returns the state unchanged in every field. -/
theorem debounce_drop_is_noop (s : State) (gpio agora : Nat)
    (h : sub_u64 agora s.Debounc_antes < 200000) : manipulador_irq_gpio s gpio agora = s := by
  unfold manipulador_irq_gpio
  rw [if_pos h]

/-- C6 on the state after an accepted press at 1 s, with a press 199999 us later. -/
theorem debounce_drop_is_noop_witness :
    manipulador_irq_gpio (manipulador_irq_gpio init 5 1000000) 6 1199999 =
      manipulador_irq_gpio init 5 1000000 :=
  debounce_drop_is_noop (manipulador_irq_gpio init 5 1000000) 6 1199999 (by decide)

/-! ## C7 -/

/-- C7 (as written, refuted): from the initial state `BOTAO_TEMP` is accepted at
`T = 1000000` us (the timestamp is stored and the temperature readout selected); an edge on
`BOTAO_CORRENTE`, never pressed before, at `T + 100000` us is dropped: the stored timestamp is
still `T`, `mostrar_corrente` is still false and the whole state is unchanged. -/
theorem other_button_dropped_within_200ms :
    (manipulador_irq_gpio init BOTAO_TEMP 1000000).Debounc_antes = 1000000 ∧
    (manipulador_irq_gpio init BOTAO_TEMP 1000000).mostrar_temp = true ∧
    (manipulador_irq_gpio (manipulador_irq_gpio init BOTAO_TEMP 1000000) BOTAO_CORRENTE
      (1000000 + 100000)).Debounc_antes = 1000000 ∧
    (manipulador_irq_gpio (manipulador_irq_gpio init BOTAO_TEMP 1000000) BOTAO_CORRENTE
      (1000000 + 100000)).mostrar_corrente = false ∧
    manipulador_irq_gpio (manipulador_irq_gpio init BOTAO_TEMP 1000000) BOTAO_CORRENTE
      (1000000 + 100000) = manipulador_irq_gpio init BOTAO_TEMP 1000000 := by
  decide

/-- C7 (amended): the debounce timestamp is one value shared by all pins.  After an edge on
pin `g1` accepted at time `T` (which stores `T`), an edge on any pin `g2` at a time `t` with
`T ≤ t` is dropped without any state change when `t < T + 200000`, and is accepted when
`T + 200000 ≤ t`: it stores `t` and is processed as a press (an armed alarm is cleared; with
the alarm disarmed `BOTAO_TEMP` toggles `mostrar_temp` and `BOTAO_CORRENTE` toggles
`mostrar_corrente`). -/
theorem debounce_shared_by_all_buttons (s : State) (g1 g2 T t : Nat)
    (hacc : 200000 ≤ sub_u64 T s.Debounc_antes) (hT : T ≤ t) (hU : t < U64) :
    (manipulador_irq_gpio s g1 T).Debounc_antes = T ∧
    (t < T + 200000 →
      manipulador_irq_gpio (manipulador_irq_gpio s g1 T) g2 t = manipulador_irq_gpio s g1 T) ∧
    (T + 200000 ≤ t →
      (manipulador_irq_gpio (manipulador_irq_gpio s g1 T) g2 t).Debounc_antes = t ∧
      ((manipulador_irq_gpio s g1 T).Alarme = true →
        (manipulador_irq_gpio (manipulador_irq_gpio s g1 T) g2 t).Alarme = false) ∧
      ((manipulador_irq_gpio s g1 T).Alarme = false → g2 = BOTAO_TEMP →
        (manipulador_irq_gpio (manipulador_irq_gpio s g1 T) g2 t).mostrar_temp =
          !(manipulador_irq_gpio s g1 T).mostrar_temp) ∧
      ((manipulador_irq_gpio s g1 T).Alarme = false → g2 = BOTAO_CORRENTE →
        (manipulador_irq_gpio (manipulador_irq_gpio s g1 T) g2 t).mostrar_corrente =
          !(manipulador_irq_gpio s g1 T).mostrar_corrente)) := by
  have hD : (manipulador_irq_gpio s g1 T).Debounc_antes = T := by
    have h : ¬ sub_u64 T s.Debounc_antes < 200000 := by omega
    cases ha : s.Alarme with
    | true => rw [irq_armed s g1 T h ha]
    | false =>
      by_cases h1 : g1 = BOTAO_TEMP
      · subst h1; rw [irq_temp s T h ha]
      · by_cases h2 : g1 = BOTAO_CORRENTE
        · subst h2; rw [irq_corrente s T h ha]
        · rw [irq_other s g1 T h ha h1 h2]
  refine ⟨hD, ?_, ?_⟩
  · intro hlt
    apply irq_dropped
    rw [hD, sub_u64_of_le hT hU]; omega
  · intro hge
    have h : ¬ sub_u64 t (manipulador_irq_gpio s g1 T).Debounc_antes < 200000 := by
      rw [hD, sub_u64_of_le hT hU]; omega
    refine ⟨?_, ?_, ?_, ?_⟩
    · cases ha : (manipulador_irq_gpio s g1 T).Alarme with
      | true => rw [irq_armed _ g2 t h ha]
      | false =>
        by_cases h1 : g2 = BOTAO_TEMP
        · subst h1; rw [irq_temp _ t h ha]
        · by_cases h2 : g2 = BOTAO_CORRENTE
          · subst h2; rw [irq_corrente _ t h ha]
          · rw [irq_other _ g2 t h ha h1 h2]
    · intro ha; rw [irq_armed _ g2 t h ha]
    · intro ha hg; subst hg; rw [irq_temp _ t h ha]
    · intro ha hg; subst hg; rw [irq_corrente _ t h ha]

/-- C7 (amended) at the initial state: `BOTAO_TEMP` at 1 s, then `BOTAO_CORRENTE` 100 ms
later (dropped) and 200 ms later (accepted). -/
theorem debounce_shared_by_all_buttons_witness :
    manipulador_irq_gpio (manipulador_irq_gpio init BOTAO_TEMP 1000000) BOTAO_CORRENTE 1100000 =
      manipulador_irq_gpio init BOTAO_TEMP 1000000 ∧
    (manipulador_irq_gpio (manipulador_irq_gpio init BOTAO_TEMP 1000000) BOTAO_CORRENTE
      1200000).Debounc_antes = 1200000 :=
  ⟨(debounce_shared_by_all_buttons init BOTAO_TEMP BOTAO_CORRENTE 1000000 1100000
      (by decide) (by decide) (by decide)).2.1 (by decide),
   ((debounce_shared_by_all_buttons init BOTAO_TEMP BOTAO_CORRENTE 1000000 1200000
      (by decide) (by decide) (by decide)).2.2 (by decide)).1⟩

/-! ## C8 -/

/-- C8: in a state with `Alarme` false, an accepted call of the interrupt handler for
`BOTAO_TEMP` leaves the display mode Idle if `mostrar_temp` was set (the mode was
ShowTemperature) and ShowTemperature otherwise, with `mostrar_corrente` cleared; for
`BOTAO_CORRENTE` it leaves the mode Idle if `mostrar_corrente` was set and ShowCurrent
otherwise, with `mostrar_temp` cleared; `Alarme` stays false in both cases.  The flag
`mostrar_temp` is set exactly when the rendered mode is ShowTemperature, and, in a state whose
two flags are not both set, `mostrar_corrente` is set exactly when the rendered mode is
ShowCurrent. -/
theorem mode_toggle_semantics (s : State) (agora : Nat) (ha : s.Alarme = false)
    (hacc : 200000 ≤ sub_u64 agora s.Debounc_antes) :
    (displayMode (manipulador_irq_gpio s BOTAO_TEMP agora) =
        if displayMode s = .ShowTemperature then .Idle else .ShowTemperature) ∧
    (manipulador_irq_gpio s BOTAO_TEMP agora).mostrar_corrente = false ∧
    (manipulador_irq_gpio s BOTAO_TEMP agora).Alarme = false ∧
    (displayMode (manipulador_irq_gpio s BOTAO_CORRENTE agora) =
        if s.mostrar_corrente = true then .Idle else .ShowCurrent) ∧
    (manipulador_irq_gpio s BOTAO_CORRENTE agora).mostrar_temp = false ∧
    (manipulador_irq_gpio s BOTAO_CORRENTE agora).Alarme = false ∧
    (displayMode s = .ShowTemperature ↔ s.mostrar_temp = true) ∧
    (¬ (s.mostrar_temp = true ∧ s.mostrar_corrente = true) →
      (displayMode s = .ShowCurrent ↔ s.mostrar_corrente = true)) := by
  have h : ¬ sub_u64 agora s.Debounc_antes < 200000 := by omega
  rw [irq_temp s agora h ha, irq_corrente s agora h ha]
  cases hmt : s.mostrar_temp <;> cases hmc : s.mostrar_corrente <;>
    simp [displayMode, ha, hmt, hmc]

/-- C8 on the state showing the temperature readout: `BOTAO_TEMP` returns to Idle and
`BOTAO_CORRENTE` switches to ShowCurrent. -/
theorem mode_toggle_semantics_witness :
    displayMode (manipulador_irq_gpio { init with mostrar_temp := true } BOTAO_TEMP 300000)
      = .Idle ∧
    displayMode (manipulador_irq_gpio { init with mostrar_temp := true } BOTAO_CORRENTE 300000)
      = .ShowCurrent :=
  ⟨(mode_toggle_semantics { init with mostrar_temp := true } 300000 rfl (by decide)).1,
   (mode_toggle_semantics { init with mostrar_temp := true } 300000 rfl (by decide)).2.2.2.1⟩

/-! ## C9 -/

/-- C9: once a run has reached a state with `Alarme` true, a sampling tick with any readings
and any timestamp returns that state unchanged, and so does any further sequence of sampling
ticks: without a button interrupt the alarm never returns to false (and so is entered at most
once). -/
theorem armed_state_unchanged_by_ticks (s0 : State) (es fs : List Event)
    (hfs : ∀ e ∈ fs, ∃ temp corrente t, e = Event.tick temp corrente t)
    (h : (run s0 es).Alarme = true) :
    (∀ temp corrente t : Nat, monitorar_variaveis (run s0 es) temp corrente t = run s0 es) ∧
    run s0 (es ++ fs) = run s0 es ∧ (run s0 (es ++ fs)).Alarme = true := by
  have hrun : run s0 (es ++ fs) = run s0 es := by
    rw [run_append]; exact run_ticks_of_armed fs hfs _ h
  exact ⟨fun temp corrente t => tick_of_armed _ temp corrente t h, hrun, by rw [hrun]; exact h⟩

/-- C9 on the run that arms the alarm at 6.000001 s, followed by in-band and critical
ticks. -/
theorem armed_state_unchanged_by_ticks_witness :
    (∀ temp corrente t : Nat,
      monitorar_variaveis
        (run init [.tick 4100 4100 1000000, .tick 4100 4100 6000001]) temp corrente t =
        run init [.tick 4100 4100 1000000, .tick 4100 4100 6000001]) ∧
    run init ([.tick 4100 4100 1000000, .tick 4100 4100 6000001] ++
        [.tick 2000 2000 6200000, .tick 4100 4100 12000000]) =
      run init [.tick 4100 4100 1000000, .tick 4100 4100 6000001] ∧
    (run init ([.tick 4100 4100 1000000, .tick 4100 4100 6000001] ++
        [.tick 2000 2000 6200000, .tick 4100 4100 12000000])).Alarme = true :=
  armed_state_unchanged_by_ticks init [.tick 4100 4100 1000000, .tick 4100 4100 6000001]
    [.tick 2000 2000 6200000, .tick 4100 4100 12000000]
    (by
      intro e he
      simp only [List.mem_cons, List.mem_singleton, List.not_mem_nil, or_false] at he
      rcases he with rfl | rfl
      · exact ⟨2000, 2000, 6200000, rfl⟩
      · exact ⟨4100, 4100, 12000000, rfl⟩)
    (by decide)

/-! ## C10 -/

/-- C10: from a state with `Alarme` false and both display flags false, an accepted press of
`BOTAO_TEMP` or of `BOTAO_CORRENTE` at `t1`, any sampling ticks after which the alarm is
still disarmed, and a press of the same button at `t2` with `t1 + 200000 ≤ t2`, leave the
display mode Idle with both flags false. -/
theorem double_toggle_returns_to_idle (s : State) (gpio t1 t2 : Nat) (ticks : List Event)
    (hg : gpio = BOTAO_TEMP ∨ gpio = BOTAO_CORRENTE) (ha : s.Alarme = false)
    (hmt : s.mostrar_temp = false) (hmc : s.mostrar_corrente = false)
    (h1 : 200000 ≤ sub_u64 t1 s.Debounc_antes) (h12 : t1 + 200000 ≤ t2) (hU : t2 < U64)
    (hticks : ∀ e ∈ ticks, ∃ temp corrente t, e = Event.tick temp corrente t)
    (hdis : (run s (.irq gpio t1 :: ticks)).Alarme = false) :
    displayMode (run s (.irq gpio t1 :: (ticks ++ [.irq gpio t2]))) = .Idle ∧
    (run s (.irq gpio t1 :: (ticks ++ [.irq gpio t2]))).mostrar_temp = false ∧
    (run s (.irq gpio t1 :: (ticks ++ [.irq gpio t2]))).mostrar_corrente = false := by
  have hn : ¬ sub_u64 t1 s.Debounc_antes < 200000 := by omega
  rw [run_cons] at hdis
  rw [run_cons, run_append, run_cons, run_nil]
  obtain ⟨kD, kT, kC⟩ := run_ticks_keeps ticks hticks (step s (.irq gpio t1))
  generalize run (step s (.irq gpio t1)) ticks = s2 at hdis kD kT kC ⊢
  simp only [step] at kD kT kC ⊢
  rcases hg with rfl | rfl
  · rw [irq_temp s t1 hn ha] at kD kT kC
    simp only [hmt, Bool.not_false] at kD kT kC
    have hn2 : ¬ sub_u64 t2 s2.Debounc_antes < 200000 := by
      rw [kD, sub_u64_of_le (by omega) hU]; omega
    rw [irq_temp s2 t2 hn2 hdis]
    simp [displayMode, hdis, kT]
  · rw [irq_corrente s t1 hn ha] at kD kT kC
    simp only [hmc, Bool.not_false] at kD kT kC
    have hn2 : ¬ sub_u64 t2 s2.Debounc_antes < 200000 := by
      rw [kD, sub_u64_of_le (by omega) hU]; omega
    rw [irq_corrente s2 t2 hn2 hdis]
    simp [displayMode, hdis, kC]

/-- C10 from the initial state: `BOTAO_CORRENTE` at 1 s, two ticks, `BOTAO_CORRENTE` at
1.2 s. -/
theorem double_toggle_returns_to_idle_witness :
    displayMode (run init (.irq BOTAO_CORRENTE 1000000 ::
      ([.tick 2000 2000 1050000, .tick 4100 2000 1150000] ++ [.irq BOTAO_CORRENTE 1200000])))
      = .Idle ∧
    (run init (.irq BOTAO_CORRENTE 1000000 ::
      ([.tick 2000 2000 1050000, .tick 4100 2000 1150000] ++ [.irq BOTAO_CORRENTE 1200000]))
      ).mostrar_temp = false ∧
    (run init (.irq BOTAO_CORRENTE 1000000 ::
      ([.tick 2000 2000 1050000, .tick 4100 2000 1150000] ++ [.irq BOTAO_CORRENTE 1200000]))
      ).mostrar_corrente = false :=
  double_toggle_returns_to_idle init BOTAO_CORRENTE 1000000 1200000
    [.tick 2000 2000 1050000, .tick 4100 2000 1150000] (Or.inr rfl) rfl rfl rfl
    (by decide) (by decide) (by decide)
    (by
      intro e he
      simp only [List.mem_cons, List.mem_singleton, List.not_mem_nil, or_false] at he
      rcases he with rfl | rfl
      · exact ⟨2000, 2000, 1050000, rfl⟩
      · exact ⟨4100, 2000, 1150000, rfl⟩)
    (by decide)

/-! ## C11 -/

theorem exclusive_step (s : State) (e : Event)
    (h : ¬ (s.mostrar_temp = true ∧ s.mostrar_corrente = true)) :
    ¬ ((step s e).mostrar_temp = true ∧ (step s e).mostrar_corrente = true) := by
  cases e with
  | tick a b t =>
    obtain ⟨-, k2, k3, -, -⟩ := tick_keeps s a b t
    simp only [step]
    rw [k2, k3]; exact h
  | irq g t =>
    simp only [step]
    by_cases hdrop : sub_u64 t s.Debounc_antes < 200000
    · rw [irq_dropped s g t hdrop]; exact h
    · cases ha : s.Alarme with
      | true => rw [irq_armed s g t hdrop ha]; exact h
      | false =>
        by_cases h1 : g = BOTAO_TEMP
        · subst h1; rw [irq_temp s t hdrop ha]; simp
        · by_cases h2 : g = BOTAO_CORRENTE
          · subst h2; rw [irq_corrente s t hdrop ha]; simp
          · rw [irq_other s g t hdrop ha h1 h2]; exact h

theorem exclusive_run (es : List Event) (s : State)
    (h : ¬ (s.mostrar_temp = true ∧ s.mostrar_corrente = true)) :
    ¬ ((run s es).mostrar_temp = true ∧ (run s es).mostrar_corrente = true) := by
  induction es generalizing s with
  | nil => exact h
  | cons e es ih => rw [run_cons]; exact ih _ (exclusive_step s e h)

/-- C11: after any sequence of sampling ticks and button interrupts from the initial state,
`mostrar_temp` and `mostrar_corrente` are not both true. -/
theorem display_flags_mutually_exclusive (es : List Event) :
    ¬ ((run init es).mostrar_temp = true ∧ (run init es).mostrar_corrente = true) :=
  exclusive_run es init (by simp [init])

/-! ## C12 -/

/-- The frame sent by `atualizar_ssd`, in terms of the three flags and the two readings. -/
theorem atualizar_ssd_display (s : State) (temp corrente : Nat) :
    (atualizar_ssd s temp corrente).display =
      if s.Alarme = true then alarmBanner
      else if s.mostrar_temp = true then
        [⟨"Temperatura ADC", 3, 10⟩, ⟨sprintf_d temp, 50, 20⟩]
      else if s.mostrar_corrente = true then
        [⟨"Corrente ADC", 18, 10⟩, ⟨sprintf_d corrente, 50, 20⟩]
      else [] := by
  cases ha : s.Alarme <;> cases hmt : s.mostrar_temp <;> cases hmc : s.mostrar_corrente <;>
    simp [atualizar_ssd, ha, hmt, hmc, ssd1306_draw_string, ssd1306_send_data,
      ssd1306_fill_false, alarmBanner]

/-- C12: the frame sent by `atualizar_ssd` is a function of `Alarme`, `mostrar_temp`,
`mostrar_corrente` and the two readings only; it is the five-line alarm banner iff `Alarme`
is true; the label "Temperatura ADC" with the decimal text of the temperature iff `Alarme` is
false and `mostrar_temp` is true; the label "Corrente ADC" with the decimal text of the current
iff `Alarme` and `mostrar_temp` are false and `mostrar_corrente` is true; and the empty frame
iff all three are false. -/
theorem presenter_selection (s : State) (temp corrente : Nat) :
    ((atualizar_ssd s temp corrente).display =
      if s.Alarme = true then alarmBanner
      else if s.mostrar_temp = true then
        [⟨"Temperatura ADC", 3, 10⟩, ⟨sprintf_d temp, 50, 20⟩]
      else if s.mostrar_corrente = true then
        [⟨"Corrente ADC", 18, 10⟩, ⟨sprintf_d corrente, 50, 20⟩]
      else []) ∧
    ((atualizar_ssd s temp corrente).display = alarmBanner ↔ s.Alarme = true) ∧
    ((atualizar_ssd s temp corrente).display =
        [⟨"Temperatura ADC", 3, 10⟩, ⟨sprintf_d temp, 50, 20⟩] ↔
      (s.Alarme = false ∧ s.mostrar_temp = true)) ∧
    ((atualizar_ssd s temp corrente).display =
        [⟨"Corrente ADC", 18, 10⟩, ⟨sprintf_d corrente, 50, 20⟩] ↔
      (s.Alarme = false ∧ s.mostrar_temp = false ∧ s.mostrar_corrente = true)) ∧
    ((atualizar_ssd s temp corrente).display = [] ↔
      (s.Alarme = false ∧ s.mostrar_temp = false ∧ s.mostrar_corrente = false)) := by
  refine ⟨atualizar_ssd_display s temp corrente, ?_, ?_, ?_, ?_⟩ <;>
    rw [atualizar_ssd_display s temp corrente] <;>
    cases s.Alarme <;> cases s.mostrar_temp <;> cases s.mostrar_corrente <;>
    simp [alarmBanner]

/-! ## C13 -/

/-- A critical tick leaves a stored nonzero excursion start as it is, armed or not. -/
theorem tick_keeps_started_timer (s : State) (temp corrente t : Nat)
    (hc : critical temp corrente) (h0 : s.tempo_inicio_alarme ≠ 0) :
    (monitorar_variaveis s temp corrente t).tempo_inicio_alarme = s.tempo_inicio_alarme := by
  have hi : inicio s t = s.tempo_inicio_alarme := by unfold inicio; rw [if_neg h0]
  cases hd : s.Alarme with
  | true => rw [tick_of_armed s temp corrente t hd]
  | false =>
    by_cases hf : sub_u64 t (inicio s t) > 5000000
    · rw [tick_fire s temp corrente t hd hc hf]; exact hi
    · rw [tick_hold s temp corrente t hd hc hf]; exact hi

theorem run_critical_keeps_started_timer (es : List Event) (hes : ∀ e ∈ es, e.isCriticalTick)
    (s : State) (h0 : s.tempo_inicio_alarme ≠ 0) :
    (run s es).tempo_inicio_alarme = s.tempo_inicio_alarme := by
  induction es generalizing s with
  | nil => rfl
  | cons e es ih =>
    have he := hes e (List.mem_cons_self _ _)
    cases e with
    | tick a b t =>
      have hk := tick_keeps_started_timer s a b t he h0
      rw [run_cons, ih (fun e he => hes e (List.mem_cons_of_mem _ he)) _
        (by simp only [step]; rw [hk]; exact h0)]
      exact hk
    | irq g t => exact absurd he (by simp [Event.isCriticalTick])

/-- C13: from a disarmed state whose excursion timer is not started, a critical tick at
time `t0` stores `t0` and leaves the alarm disarmed; after the next critical tick, and after
any number of further critical ticks, the stored excursion start is still `t0`.  The clock is
the time since boot in microseconds, and `main` initialises the peripherals before its first
tick, so the clock value read by a tick is positive: `0 < t0`. -/
theorem excursion_start_set_once (s : State) (temp0 corrente0 t0 temp1 corrente1 t1 : Nat)
    (more : List Event) (hd : s.Alarme = false) (h0 : s.tempo_inicio_alarme = 0)
    (hpos : 0 < t0) (hc0 : critical temp0 corrente0) (hc1 : critical temp1 corrente1)
    (hmore : ∀ e ∈ more, e.isCriticalTick) :
    (run s [.tick temp0 corrente0 t0]).tempo_inicio_alarme = t0 ∧
    (run s [.tick temp0 corrente0 t0]).Alarme = false ∧
    (run s [.tick temp0 corrente0 t0, .tick temp1 corrente1 t1]).tempo_inicio_alarme = t0 ∧
    (run s (.tick temp0 corrente0 t0 :: .tick temp1 corrente1 t1 :: more)
      ).tempo_inicio_alarme = t0 := by
  have hi : inicio s t0 = t0 := by unfold inicio; rw [if_pos h0]
  have hf : ¬ sub_u64 t0 (inicio s t0) > 5000000 := by rw [hi, sub_u64_self]; omega
  have h1 : (step s (.tick temp0 corrente0 t0)).tempo_inicio_alarme = t0 := by
    simp only [step]; rw [tick_hold s temp0 corrente0 t0 hd hc0 hf]; exact hi
  have h1a : (step s (.tick temp0 corrente0 t0)).Alarme = false := by
    simp only [step]; rw [tick_hold s temp0 corrente0 t0 hd hc0 hf]; exact hd
  have hne : (step s (.tick temp0 corrente0 t0)).tempo_inicio_alarme ≠ 0 := by
    rw [h1]; omega
  have hall : ∀ e ∈ Event.tick temp1 corrente1 t1 :: more, e.isCriticalTick := by
    intro e he
    rcases List.mem_cons.1 he with rfl | he
    · exact hc1
    · exact hmore e he
  refine ⟨h1, h1a, ?_, ?_⟩
  · rw [run_cons, run_critical_keeps_started_timer [.tick temp1 corrente1 t1] ?_ _ hne, h1]
    intro e he
    rcases List.mem_singleton.1 he with rfl
    exact hc1
  · rw [run_cons, run_critical_keeps_started_timer _ hall _ hne, h1]

/-- C13 from the initial state: critical ticks at 1 s, 1.2 s and 7 s. -/
theorem excursion_start_set_once_witness :
    (run init [.tick 4100 2000 1000000]).tempo_inicio_alarme = 1000000 ∧
    (run init [.tick 4100 2000 1000000]).Alarme = false ∧
    (run init [.tick 4100 2000 1000000, .tick 10 2000 1200000]).tempo_inicio_alarme
      = 1000000 ∧
    (run init (.tick 4100 2000 1000000 :: .tick 10 2000 1200000 :: [.tick 4100 2000 7000000])
      ).tempo_inicio_alarme = 1000000 :=
  excursion_start_set_once init 4100 2000 1000000 10 2000 1200000 [.tick 4100 2000 7000000]
    rfl rfl (by decide) (by decide) (by decide)
    (by intro e he; simp at he; subst he; simp [Event.isCriticalTick, critical])

/-! ## C14 -/

/-- C14: a sampling tick after which the alarm is armed, any sampling ticks executed while it
is armed, and the accepted button press (any pin) that follows, each leave `mostrar_temp`
and `mostrar_corrente` as they were; after the press the alarm is disarmed and the two flags
have the values they had before the arming tick. -/
theorem alarm_episode_keeps_display_flags (s : State) (temp corrente t : Nat)
    (armed : List Event) (gpio tb : Nat)
    (harm : (monitorar_variaveis s temp corrente t).Alarme = true)
    (hticks : ∀ e ∈ armed, ∃ a b t1, e = Event.tick a b t1)
    (hacc : 200000 ≤ sub_u64 tb s.Debounc_antes) :
    ((run s [.tick temp corrente t]).mostrar_temp = s.mostrar_temp ∧
      (run s [.tick temp corrente t]).mostrar_corrente = s.mostrar_corrente) ∧
    ((run s (.tick temp corrente t :: armed)).mostrar_temp = s.mostrar_temp ∧
      (run s (.tick temp corrente t :: armed)).mostrar_corrente = s.mostrar_corrente) ∧
    (run s (.tick temp corrente t :: (armed ++ [.irq gpio tb]))).Alarme = false ∧
    (run s (.tick temp corrente t :: (armed ++ [.irq gpio tb]))).mostrar_temp
      = s.mostrar_temp ∧
    (run s (.tick temp corrente t :: (armed ++ [.irq gpio tb]))).mostrar_corrente
      = s.mostrar_corrente := by
  obtain ⟨kD, kT, kC, -, -⟩ := tick_keeps s temp corrente t
  have hfix : run (monitorar_variaveis s temp corrente t) armed =
      monitorar_variaveis s temp corrente t := run_ticks_of_armed armed hticks _ harm
  have hn : ¬ sub_u64 tb (monitorar_variaveis s temp corrente t).Debounc_antes < 200000 := by
    rw [kD]; omega
  refine ⟨⟨kT, kC⟩, ⟨?_, ?_⟩, ?_, ?_, ?_⟩
  · rw [run_cons]; simp only [step]; rw [hfix]; exact kT
  · rw [run_cons]; simp only [step]; rw [hfix]; exact kC
  · rw [run_cons, run_append, run_cons, run_nil]; simp only [step]
    rw [hfix, irq_armed _ gpio tb hn harm]
  · rw [run_cons, run_append, run_cons, run_nil]; simp only [step]
    rw [hfix, irq_armed _ gpio tb hn harm]; exact kT
  · rw [run_cons, run_append, run_cons, run_nil]; simp only [step]
    rw [hfix, irq_armed _ gpio tb hn harm]; exact kC

/-- C14 on an episode that begins with the temperature readout selected: the excursion has
lasted 6 s at the arming tick, one tick is executed while armed, and the press of the other
button disarms. -/
theorem alarm_episode_keeps_display_flags_witness :
    (run { init with mostrar_temp := true, tempo_inicio_alarme := 1000000 }
      (.tick 4100 2000 7000000 :: ([.tick 2000 2000 7200000] ++ [.irq BOTAO_CORRENTE 8000000]))
      ).Alarme = false ∧
    (run { init with mostrar_temp := true, tempo_inicio_alarme := 1000000 }
      (.tick 4100 2000 7000000 :: ([.tick 2000 2000 7200000] ++ [.irq BOTAO_CORRENTE 8000000]))
      ).mostrar_temp = true ∧
    (run { init with mostrar_temp := true, tempo_inicio_alarme := 1000000 }
      (.tick 4100 2000 7000000 :: ([.tick 2000 2000 7200000] ++ [.irq BOTAO_CORRENTE 8000000]))
      ).mostrar_corrente = false :=
  (alarm_episode_keeps_display_flags
    { init with mostrar_temp := true, tempo_inicio_alarme := 1000000 } 4100 2000 7000000
    [.tick 2000 2000 7200000] BOTAO_CORRENTE 8000000 (by decide)
    (by intro e he; simp at he; subst he; exact ⟨2000, 2000, 7200000, rfl⟩)
    (by decide)).2.2

/-! ## C16 -/

/-- The stored excursion start is never later than the latest clock value seen. -/
theorem timer_le_bound (M : Nat) (es : List Event) (hes : ∀ e ∈ es, e.time ≤ M) (s : State)
    (h : s.tempo_inicio_alarme ≤ M) : (run s es).tempo_inicio_alarme ≤ M := by
  induction es generalizing s with
  | nil => exact h
  | cons e es ih =>
    rw [run_cons]
    apply ih (fun e he => hes e (List.mem_cons_of_mem _ he))
    have he := hes e (List.mem_cons_self _ _)
    cases e with
    | tick a b t =>
      simp only [Event.time] at he
      simp only [step]
      have hi : inicio s t ≤ M := by unfold inicio; split_ifs <;> omega
      cases hd : s.Alarme with
      | true => rw [tick_of_armed s a b t hd]; exact h
      | false =>
        by_cases hc : critical a b
        · by_cases hf : sub_u64 t (inicio s t) > 5000000
          · rw [tick_fire s a b t hd hc hf]; exact hi
          · rw [tick_hold s a b t hd hc hf]; exact hi
        · rw [tick_inband s a b t hd hc]; exact Nat.zero_le _
    | irq g t =>
      simp only [step]; rw [irq_tempo_inicio_alarme]; exact h

/-- A tick that arms a disarmed state found an excursion already being timed, more than 5 s
old by the wrapped difference, and leaves its stored start in place. -/
theorem tick_arms_inv (s : State) (temp corrente t : Nat) (hd : s.Alarme = false)
    (harm : (monitorar_variaveis s temp corrente t).Alarme = true) :
    s.tempo_inicio_alarme ≠ 0 ∧ sub_u64 t s.tempo_inicio_alarme > 5000000 ∧
    (monitorar_variaveis s temp corrente t).tempo_inicio_alarme = s.tempo_inicio_alarme := by
  by_cases hc : critical temp corrente
  · by_cases hf : sub_u64 t (inicio s t) > 5000000
    · have h0 : s.tempo_inicio_alarme ≠ 0 := by
        intro h0
        have hi : inicio s t = t := by unfold inicio; rw [if_pos h0]
        rw [hi, sub_u64_self] at hf
        omega
      have hi : inicio s t = s.tempo_inicio_alarme := by unfold inicio; rw [if_neg h0]
      rw [tick_fire s temp corrente t hd hc hf]
      exact ⟨h0, hi ▸ hf, hi⟩
    · rw [tick_hold s temp corrente t hd hc hf] at harm
      simp [hd] at harm
  · rw [tick_inband s temp corrente t hd hc] at harm
    simp [hd] at harm

/-- Button interrupts served by a disarmed state leave it disarmed with the same excursion
timer. -/
theorem irqs_keep_disarmed (es : List Event) (hes : ∀ e ∈ es, ∃ g t, e = Event.irq g t)
    (s : State) (hd : s.Alarme = false) :
    (run s es).Alarme = false ∧ (run s es).tempo_inicio_alarme = s.tempo_inicio_alarme := by
  induction es generalizing s with
  | nil => exact ⟨hd, rfl⟩
  | cons e es ih =>
    obtain ⟨g, t, rfl⟩ := hes e (List.mem_cons_self _ _)
    rw [run_cons]
    obtain ⟨h1, h2⟩ := ih (fun e he => hes e (List.mem_cons_of_mem _ he))
      (step s (.irq g t)) (irq_Alarme_of_disarmed s g t hd)
    refine ⟨h1, h2.trans ?_⟩
    simp only [step]; rw [irq_tempo_inicio_alarme]

/-- C16: in a trace from the initial state with non-decreasing timestamps, let a sampling tick
at `ta` arm the alarm, let sampling ticks follow while it is armed, and let a button press
then disarm it.  The excursion timer after the press still holds the nonzero start stored
before the arming tick, and the next sampling tick, after any further button interrupts, arms
the alarm again at once if it reads a critical value, however soon after the press it
comes. -/
theorem rearm_without_new_wait (pre : List Event) (temp corrente ta : Nat)
    (armed : List Event) (gpio tb : Nat) (presses : List Event) (temp2 corrente2 t : Nat)
    (hd : (run init pre).Alarme = false)
    (harm : (run init (pre ++ [.tick temp corrente ta])).Alarme = true)
    (harmed : ∀ e ∈ armed, ∃ a b t1, e = Event.tick a b t1)
    (hdis : (run init (pre ++ .tick temp corrente ta :: (armed ++ [.irq gpio tb]))).Alarme
      = false)
    (hpresses : ∀ e ∈ presses, ∃ g t1, e = Event.irq g t1)
    (hc : critical temp2 corrente2)
    (hmono : (pre ++ Event.tick temp corrente ta ::
      (armed ++ Event.irq gpio tb :: (presses ++ [Event.tick temp2 corrente2 t]))).Pairwise
        (fun e1 e2 : Event => e1.time ≤ e2.time))
    (hU : t < U64) :
    (run init (pre ++ .tick temp corrente ta :: (armed ++ [.irq gpio tb]))).tempo_inicio_alarme
      = (run init pre).tempo_inicio_alarme ∧
    (run init pre).tempo_inicio_alarme ≠ 0 ∧
    (run init (pre ++ .tick temp corrente ta ::
      (armed ++ .irq gpio tb :: (presses ++ [.tick temp2 corrente2 t])))).Alarme = true := by
  obtain ⟨-, hp2, hp12⟩ := List.pairwise_append.1 hmono
  have hpre : ∀ e ∈ pre, e.time ≤ ta := fun e he =>
    hp12 e he (.tick temp corrente ta) (List.mem_cons_self _ _)
  have hta : ta ≤ t := by
    have := (List.pairwise_cons.1 hp2).1 (.tick temp2 corrente2 t) (by simp)
    simpa [Event.time] using this
  have hle : (run init pre).tempo_inicio_alarme ≤ ta :=
    timer_le_bound ta pre hpre init (by simp [init])
  rw [run_append, run_cons, run_nil] at harm
  simp only [step] at harm
  obtain ⟨h0, hgt, hkeep⟩ := tick_arms_inv (run init pre) temp corrente ta hd harm
  rw [sub_u64_of_le hle (by omega)] at hgt
  have hfix : run (monitorar_variaveis (run init pre) temp corrente ta) armed =
      monitorar_variaveis (run init pre) temp corrente ta :=
    run_ticks_of_armed armed harmed _ harm
  rw [run_append, run_cons, run_append, run_cons, run_nil] at hdis
  simp only [step] at hdis
  rw [hfix] at hdis
  have htimer : (manipulador_irq_gpio (monitorar_variaveis (run init pre) temp corrente ta)
      gpio tb).tempo_inicio_alarme = (run init pre).tempo_inicio_alarme := by
    rw [irq_tempo_inicio_alarme, hkeep]
  refine ⟨?_, h0, ?_⟩
  · rw [run_append, run_cons, run_append, run_cons, run_nil]
    simp only [step]
    rw [hfix]; exact htimer
  · rw [run_append, run_cons, run_append, run_cons, run_append, run_cons, run_nil]
    simp only [step]
    rw [hfix]
    obtain ⟨hA, hT⟩ := irqs_keep_disarmed presses hpresses _ hdis
    rw [htimer] at hT
    generalize run (manipulador_irq_gpio (monitorar_variaveis (run init pre) temp corrente ta)
      gpio tb) presses = s4 at hA hT
    have hi : inicio s4 t = s4.tempo_inicio_alarme := by
      unfold inicio; rw [if_neg (by rw [hT]; exact h0)]
    have hf : sub_u64 t (inicio s4 t) > 5000000 := by
      rw [hi, hT, sub_u64_of_le (by omega) hU]; omega
    rw [tick_fire s4 temp2 corrente2 t hA hc hf]

/-- C16 on a trace from the initial state: the excursion starts at 1 s, the tick at 6.2 s arms
the alarm, a press at 9 s disarms it, and the critical tick at 9.1 s arms it again. -/
theorem rearm_without_new_wait_witness :
    (run init ([.tick 4100 2000 1000000] ++ .tick 4100 2000 6200000 ::
      ([.tick 2000 2000 6400000] ++ [.irq BOTAO_TEMP 9000000]))).tempo_inicio_alarme
      = (run init [.tick 4100 2000 1000000]).tempo_inicio_alarme ∧
    (run init [.tick 4100 2000 1000000]).tempo_inicio_alarme ≠ 0 ∧
    (run init ([.tick 4100 2000 1000000] ++ .tick 4100 2000 6200000 ::
      ([.tick 2000 2000 6400000] ++ .irq BOTAO_TEMP 9000000 ::
        ([.irq BOTAO_CORRENTE 9050000] ++ [.tick 10 2000 9100000])))).Alarme = true :=
  rearm_without_new_wait [.tick 4100 2000 1000000] 4100 2000 6200000
    [.tick 2000 2000 6400000] BOTAO_TEMP 9000000 [.irq BOTAO_CORRENTE 9050000] 10 2000 9100000
    (by decide) (by decide)
    (by intro e he; simp at he; subst he; exact ⟨2000, 2000, 6400000, rfl⟩)
    (by decide)
    (by intro e he; simp at he; subst he; exact ⟨BOTAO_CORRENTE, 9050000, rfl⟩)
    (by decide) (by simp [Event.time]) (by decide)

/-! ## C15 -/

theorem tocar_tom_eq (s : State) (i : Nat) :
    tocar_tom s i = { s with buzzer_wrap := 125000 / frequencias i,
                             buzzer_level := 125000 / frequencias i / 2 } := rfl

theorem silenciar_eq (s : State) :
    pwm_set_chan_level s BUZZER_PWM_SLICE BUZZER_PWM_CHANNEL 0 = { s with buzzer_level := 0 } :=
  rfl

theorem laco_alarme_of_disarmed (s : State) (i : Nat) (sleeps : List (List (Nat × Nat)))
    (h : s.Alarme = false) : laco_alarme s i sleeps = ([], some s) := by
  cases sleeps <;> simp [laco_alarme, h]

/-- Every tone the sub-loop programs is the one of `frequencias` at the parity of its pass. -/
theorem laco_alarme_log (sleeps : List (List (Nat × Nat))) (s : State) (i : Nat) (hi : i ≤ 1)
    (n : Nat) (tom : Tom) (h : (laco_alarme s i sleeps).1[n]? = some tom) :
    tom = ⟨125000 / frequencias ((i + n) % 2), 125000 / frequencias ((i + n) % 2) / 2⟩ := by
  induction sleeps generalizing s i n with
  | nil =>
    cases ha : s.Alarme <;> simp [laco_alarme, ha] at h
  | cons irqs rest ih =>
    cases ha : s.Alarme with
    | false => simp [laco_alarme, ha] at h
    | true =>
      simp only [laco_alarme, ha, if_true] at h
      cases n with
      | zero =>
        simp only [List.getElem?_cons_zero, Option.some.injEq] at h
        have him : (i + 0) % 2 = i := by omega
        rw [← h, him, tocar_tom_eq]
      | succ m =>
        simp only [List.getElem?_cons_succ] at h
        have := ih (servir (tocar_tom s i) irqs) (if i = 0 then 1 else 0)
          (by split_ifs <;> omega) m h
        have him : ((if i = 0 then 1 else 0) + m) % 2 = (i + (m + 1)) % 2 := by
          split_ifs <;> omega
        rw [him] at this
        exact this

/-- The sub-loop exits only with the alarm disarmed. -/
theorem laco_alarme_exit (sleeps : List (List (Nat × Nat))) (s : State) (i : Nat) (s3 : State)
    (h : (laco_alarme s i sleeps).2 = some s3) : s3.Alarme = false := by
  induction sleeps generalizing s i with
  | nil =>
    cases ha : s.Alarme
    · simp [laco_alarme, ha] at h; rw [← h]; exact ha
    · simp [laco_alarme, ha] at h
  | cons irqs rest ih =>
    cases ha : s.Alarme with
    | false => simp [laco_alarme, ha] at h; rw [← h]; exact ha
    | true =>
      simp only [laco_alarme, ha, if_true] at h
      exact ih _ _ h

/-- With no interrupt during the first `k` sleeps and an accepted press during the next one,
the sub-loop makes exactly `k + 1` passes and exits. -/
theorem laco_alarme_until_press (k : Nat) (s : State) (i gpio tb : Nat)
    (rest : List (List (Nat × Nat))) (ha : s.Alarme = true)
    (hacc : 200000 ≤ sub_u64 tb s.Debounc_antes) :
    (laco_alarme s i (List.replicate k [] ++ [(gpio, tb)] :: rest)).1.length = k + 1 ∧
    ∃ s3, (laco_alarme s i (List.replicate k [] ++ [(gpio, tb)] :: rest)).2 = some s3 := by
  induction k generalizing s i with
  | zero =>
    have hn : ¬ sub_u64 tb (tocar_tom s i).Debounc_antes < 200000 := by
      rw [tocar_tom_eq]; simp only; omega
    have hd : (servir (tocar_tom s i) [(gpio, tb)]).Alarme = false := by
      simp only [servir, List.foldl]
      rw [irq_armed _ gpio tb hn (by rw [tocar_tom_eq]; exact ha)]
    simp only [List.replicate, List.nil_append, laco_alarme, ha, if_true]
    rw [laco_alarme_of_disarmed _ _ rest hd]
    exact ⟨rfl, _, rfl⟩
  | succ k ih =>
    have h1 := ih (tocar_tom s i) (if i = 0 then 1 else 0) (by rw [tocar_tom_eq]; exact ha)
      (by rw [tocar_tom_eq]; exact hacc)
    have hrep : List.replicate (k + 1) ([] : List (Nat × Nat)) ++ [(gpio, tb)] :: rest =
        [] :: (List.replicate k [] ++ [(gpio, tb)] :: rest) := by
      rw [List.replicate_succ, List.cons_append]
    rw [hrep]
    simp only [laco_alarme, ha, if_true, servir, List.foldl, List.length_cons]
    exact ⟨by rw [h1.1], h1.2⟩

/-- C15: in one pass of the body of the control loop, the alarm sub-loop is entered with
index 0, and its n-th pass (n = 0, 1, 2, ...) programs the buzzer with wrap `125000 / f` and
level `125000 / f / 2` for `f = 1000` when n is even and `f = 1500` when n is odd; when the
sub-loop has exited, the alarm is disarmed and the buzzer level is 0.  The sub-loop does make
passes and exit: if the alarm is armed when it is entered, no interrupt arrives during the
first `k` sleeps and an accepted press arrives during the next, it makes exactly `k + 1`
passes and exits. -/
theorem tone_alternation (s : State) (temp corrente t : Nat) (irqs : List (Nat × Nat)) :
    (∀ (sleeps : List (List (Nat × Nat))) (n : Nat) (tom : Tom),
      (main_ciclo s temp corrente t irqs sleeps).1[n]? = some tom →
      tom = if n % 2 = 0 then ⟨125000 / 1000, 125000 / 1000 / 2⟩
            else ⟨125000 / 1500, 125000 / 1500 / 2⟩) ∧
    (∀ (sleeps : List (List (Nat × Nat))) (s3 : State),
      (main_ciclo s temp corrente t irqs sleeps).2 = some s3 →
      s3.Alarme = false ∧ s3.buzzer_level = 0) ∧
    (∀ (k gpio tb : Nat) (rest : List (List (Nat × Nat))),
      (servir (monitorar_variaveis s temp corrente t) irqs).Alarme = true →
      200000 ≤ sub_u64 tb (servir (monitorar_variaveis s temp corrente t) irqs).Debounc_antes →
      (main_ciclo s temp corrente t irqs
        (List.replicate k [] ++ [(gpio, tb)] :: rest)).1.length = k + 1 ∧
      ∃ s3, (main_ciclo s temp corrente t irqs
        (List.replicate k [] ++ [(gpio, tb)] :: rest)).2 = some s3) := by
  refine ⟨?_, ?_, ?_⟩
  · intro sleeps n tom h
    simp only [main_ciclo] at h
    have := laco_alarme_log sleeps _ 0 (by omega) n tom h
    rw [this]
    have hn : (0 + n) % 2 = n % 2 := by omega
    rw [hn]
    rcases Nat.mod_two_eq_zero_or_one n with h0 | h1
    · rw [h0]; simp [frequencias]
    · rw [h1]; simp [frequencias]
  · intro sleeps s3 h
    simp only [main_ciclo, Option.map_eq_some'] at h
    obtain ⟨s2, h2, rfl⟩ := h
    rw [silenciar_eq]
    exact ⟨laco_alarme_exit sleeps _ 0 s2 h2, rfl⟩
  · intro k gpio tb rest ha hacc
    obtain ⟨h1, s3, h3⟩ := laco_alarme_until_press k _ 0 gpio tb rest ha hacc
    simp only [main_ciclo]
    exact ⟨h1, _, by rw [h3]; rfl⟩

/-! ## C17 -/

/-- The number of decimal digits written for a value of at least `10 ^ k` is at least
`k + 1`, given enough fuel. -/
theorem toDigitsCore_length_ge (k : Nat) (f n : Nat) (hn : 10 ^ k ≤ n) (hf : k < f) :
    k + 1 ≤ (Nat.toDigitsCore 10 f n []).length := by
  induction k generalizing f n with
  | zero =>
    cases f with
    | zero => omega
    | succ f =>
      simp only [Nat.toDigitsCore]
      split_ifs
      · simp
      · rw [Nat.toDigitsCore_lens_eq]; omega
  | succ k ih =>
    cases f with
    | zero => omega
    | succ f =>
      have hpos : 0 < 10 ^ k := Nat.pow_pos (by omega)
      have hdiv : 10 ^ k ≤ n / 10 := by
        rw [Nat.le_div_iff_mul_le (by omega)]
        rw [pow_succ] at hn
        exact hn
      simp only [Nat.toDigitsCore]
      rw [if_neg (by omega), Nat.toDigitsCore_lens_eq]
      have := ih f (n / 10) hdiv (by omega)
      omega

theorem sprintf_d_length_ge (k v : Nat) (hv : 10 ^ k ≤ v) : k + 1 ≤ (sprintf_d v).length := by
  have hk : k < 10 ^ k := Nat.lt_pow_self (by omega) k
  have := toDigitsCore_length_ge k (v + 1) v hv (by omega)
  simpa [sprintf_d, Nat.repr, Nat.toDigits, String.length, List.asString] using this

/-- C17: for a reading in 0..4095 the decimal text written by `sprintf "%d"` has at most 4
characters, so with its terminator it fits in the 5 bytes of `temp_str` / `corrente_str`; for
a value of 10000 or more the text has at least 5 characters and needs at least 6 bytes, more
than the buffer holds. -/
theorem display_text_fits_buffer (v : Nat) :
    (v ≤ 4095 → (sprintf_d v).length ≤ 4 ∧ (sprintf_d v).length + 1 ≤ TAMANHO_STR) ∧
    (10000 ≤ v → 6 ≤ (sprintf_d v).length + 1 ∧ TAMANHO_STR < (sprintf_d v).length + 1) := by
  constructor
  · intro hv
    have h := Nat.repr_length v 4 (by omega) (by omega)
    simp only [sprintf_d, TAMANHO_STR]
    omega
  · intro hv
    have h := sprintf_d_length_ge 4 v (by omega)
    simp only [TAMANHO_STR]
    omega

/-- C17 at the largest reading of the 12-bit range and at the first value that overflows. -/
theorem display_text_fits_buffer_witness :
    ((sprintf_d 4095).length ≤ 4 ∧ (sprintf_d 4095).length + 1 ≤ TAMANHO_STR) ∧
    (6 ≤ (sprintf_d 10000).length + 1 ∧ TAMANHO_STR < (sprintf_d 10000).length + 1) :=
  ⟨(display_text_fits_buffer 4095).1 (by decide), (display_text_fits_buffer 10000).2 (by decide)⟩

end Final
